import Mathlib

/-!
Fuego API gateway: request mediation.

A shallow embedding of `src/gateway/server-privacy.js` (the privacy-aware gateway,
namespace `Privacy`) and of the JSON-RPC helpers and handlers of `src/gateway/server.js`
(namespace `Plain`), together with the JavaScript value semantics the two files rely on.

Conventions of the embedding.

* A JSON value is a `Json`; a JavaScript value that may be `undefined` is a `JsVal`
  (`none` is `undefined`).  JSON numbers are modelled as integers.
* Code that can throw returns `Except JsError _`.
* The two backends are an oracle `RpcCall → Reply`; every outbound `fetch` is recorded in the
  `calls` field of the `Outcome`, so "the backend is not called" is `calls = []`.
* Shared mutable state (the two rate-limit stores) is passed explicitly.
-/

set_option autoImplicit false

/-! ## JavaScript values -/

/-- A value produced by `JSON.parse`.  Numbers are modelled as integers. -/
inductive Json where
  | null
  | bool (b : Bool)
  | num (n : Int)
  | str (s : String)
  | arr (xs : List Json)
  | obj (kvs : List (String × Json))
  deriving Repr, Inhabited

/-- A JavaScript value that may be `undefined` (`none`). -/
abbrev JsVal := Option Json

/-- A thrown JavaScript error object: its `name`, `message`, optional `code` property and
`stack` string. -/
structure JsError where
  name : String
  message : String
  code : JsVal
  stack : String
  deriving Repr

/-- The object `new Error(message)`: no `code` property.  The stack frames that the runtime
appends after the header line are not modelled. -/
def newError (message : String) : JsError :=
  { name := "Error", message := message, code := none, stack := "Error: " ++ message }

/-- The `TypeError` the runtime throws on its own (property read on `null`, failed
conversion to a primitive). -/
def typeError (message : String) : JsError :=
  { name := "TypeError", message := message, code := none, stack := "TypeError: " ++ message }

namespace Json

/-- First entry stored under key `k` of an object's entry list. -/
def lookup (k : String) : List (String × Json) → JsVal
  | [] => none
  | (k', v) :: rest => if k' = k then some v else lookup k rest

/-- The keys of a JSON object, in order; a value that is not an object has none. -/
def keys : Json → List String
  | obj kvs => kvs.map Prod.fst
  | _ => []

/-- Own-property read `j[k]` that never throws: entries of an object, `undefined` otherwise. -/
def field (j : Json) (k : String) : JsVal :=
  match j with
  | obj kvs => lookup k kvs
  | _ => none

end Json

/-- Property read `v.k` for the property names this program uses (none of which is defined on
a built-in prototype): reading from `undefined` or `null` throws a `TypeError`, an object
yields its entry, every other value yields `undefined`. -/
def getProp (v : JsVal) (k : String) : Except JsError JsVal :=
  match v with
  | none => .error (typeError ("Cannot read properties of undefined (reading '" ++ k ++ "')"))
  | some .null => .error (typeError ("Cannot read properties of null (reading '" ++ k ++ "')"))
  | some (.obj kvs) => .ok (Json.lookup k kvs)
  | some _ => .ok none

/-- ToBoolean: `undefined`, `null`, `false`, `0` and `""` are falsy, everything else is
truthy. -/
def truthy : JsVal → Bool
  | none => false
  | some .null => false
  | some (.bool b) => b
  | some (.num n) => n != 0
  | some (.str s) => s != ""
  | some (.arr _) => true
  | some (.obj _) => true

mutual
/-- ToString of a JSON value, as a template literal applies it.  A number is written in
decimal (as JavaScript writes an integer below 10^21); an array is joined with commas (`null`
elements render empty); a plain object renders as `[object Object]` unless it has an own
`toString` entry, which is not callable and makes the conversion throw. -/
def Json.toJsString : Json → Except JsError String
  | .null => .ok "null"
  | .bool b => .ok (if b then "true" else "false")
  | .num n => .ok (toString n)
  | .str s => .ok s
  | .arr xs => Json.joinElems xs
  | .obj kvs =>
    match Json.lookup "toString" kvs with
    | some _ => .error (typeError "Cannot convert object to primitive value")
    | none => .ok "[object Object]"
/-- The loop of `Array.prototype.join` with separator `,`. -/
def Json.joinElems : List Json → Except JsError String
  | [] => .ok ""
  | [x] => Json.elemString x
  | x :: y :: rest =>
    match Json.elemString x with
    | .error e => .error e
    | .ok s =>
      match Json.joinElems (y :: rest) with
      | .error e => .error e
      | .ok t => .ok (s ++ "," ++ t)
/-- One element inside `join`: `null` renders as the empty string. -/
def Json.elemString : Json → Except JsError String
  | .null => .ok ""
  | .bool b => .ok (if b then "true" else "false")
  | .num n => .ok (toString n)
  | .str s => .ok s
  | .arr xs => Json.joinElems xs
  | .obj kvs =>
    match Json.lookup "toString" kvs with
    | some _ => .error (typeError "Cannot convert object to primitive value")
    | none => .ok "[object Object]"
end

/-- ToString of a possibly-undefined value. -/
def jsToString : JsVal → Except JsError String
  | none => .ok "undefined"
  | some j => j.toJsString

/-! ## Strings to numbers -/

/-- The code points of WhiteSpace and LineTerminator, which `parseInt` and ToNumber skip. -/
def isJsWhiteSpace (c : Char) : Bool :=
  let n := c.toNat
  n == 0x09 || n == 0x0A || n == 0x0B || n == 0x0C || n == 0x0D || n == 0x20 || n == 0xA0 ||
  n == 0x1680 || (0x2000 ≤ n && n ≤ 0x200A) || n == 0x2028 || n == 0x2029 || n == 0x202F ||
  n == 0x205F || n == 0x3000 || n == 0xFEFF

/-- Value of a character as a digit in the given radix, if it is one. -/
def digitValue (radix : Nat) (c : Char) : Option Nat :=
  let n := c.toNat
  let v : Option Nat :=
    if 48 ≤ n ∧ n ≤ 57 then some (n - 48)
    else if 97 ≤ n ∧ n ≤ 122 then some (n - 97 + 10)
    else if 65 ≤ n ∧ n ≤ 90 then some (n - 65 + 10)
    else none
  match v with
  | some d => if d < radix then some d else none
  | none => none

/-- Reads the longest run of radix digits at the head of `cs`, accumulating into `acc`;
returns the value and the number of digits read. -/
def readDigits (radix : Nat) : List Char → Nat → Nat → Nat × Nat
  | [], acc, cnt => (acc, cnt)
  | c :: cs, acc, cnt =>
    match digitValue radix c with
    | some d => readDigits radix cs (acc * radix + d) (cnt + 1)
    | none => (acc, cnt)

/-- Drops leading white space. -/
def trimStart : List Char → List Char
  | [] => []
  | c :: cs => if isJsWhiteSpace c then trimStart cs else c :: cs

/-- The sign step of `parseInt`: a leading `-` or `+` is consumed; the flag tells whether it
was `-`. -/
def readSign : List Char → Bool × List Char
  | '-' :: r => (true, r)
  | '+' :: r => (false, r)
  | s => (false, s)

/-- The radix step of `parseInt` when no radix is given: a leading `0x` or `0X` is consumed and
selects radix 16, otherwise the radix is 10. -/
def readRadix : List Char → Nat × List Char
  | '0' :: 'x' :: r => (16, r)
  | '0' :: 'X' :: r => (16, r)
  | s => (10, s)

/-- The function `parseInt(s)` with no radix argument, on the characters of `s`; `none` is
`NaN`.  Leading white space is skipped, one sign is read, a `0x`/`0X` marker selects radix 16,
then the longest run of digits is read and whatever follows is ignored.  The result is kept
exact (a double is exact up to 2^53); negative zero is `0`. -/
def parseIntChars (cs : List Char) : Option Int :=
  let signed := readSign (trimStart cs)
  let based := readRadix signed.2
  let digits := readDigits based.1 based.2 0 0
  if digits.2 = 0 then none
  else if signed.1 then some (-(digits.1 : Int)) else some (digits.1 : Int)

/-- The call `parseInt(s)`. -/
def parseInt (s : String) : Option Int := parseIntChars s.data

/-- A decimal digit character. -/
def isDecimalDigit (c : Char) : Bool := decide (48 ≤ c.toNat) && decide (c.toNat ≤ 57)

/-- Whether every character is a digit of the radix. -/
def allDigits (radix : Nat) (cs : List Char) : Bool :=
  cs.all fun c => (digitValue radix c).isSome

/-- Splits off the longest run of decimal digits at the head. -/
def spanDecimal : List Char → List Char × List Char
  | [] => ([], [])
  | c :: cs =>
    if isDecimalDigit c then ((c :: (spanDecimal cs).1), (spanDecimal cs).2)
    else ([], c :: cs)

/-- The ExponentPart that may end a decimal literal: `some 0` when nothing follows, the
signed exponent after `e` or `E`, `none` when what follows is not an exponent. -/
def readExponent : List Char → Option Int
  | [] => some 0
  | c :: rest =>
    if c = 'e' ∨ c = 'E' then
      match rest with
      | '-' :: ds =>
        if ds ≠ [] ∧ allDigits 10 ds then some (-((readDigits 10 ds 0 0).1 : Int)) else none
      | '+' :: ds =>
        if ds ≠ [] ∧ allDigits 10 ds then some ((readDigits 10 ds 0 0).1 : Int) else none
      | ds =>
        if ds ≠ [] ∧ allDigits 10 ds then some ((readDigits 10 ds 0 0).1 : Int) else none
    else none

/-- Reads a StrUnsignedDecimalLiteral (`Infinity`, or digits with an optional fraction and
exponent): `none` when the characters are not such a literal, otherwise whether its Number
value is zero.  A positive literal has the value zero exactly when it does not exceed
2^-1075, half the least positive double. -/
def unsignedIsZero (cs : List Char) : Option Bool :=
  if cs = "Infinity".data then some false
  else
    let whole := spanDecimal cs
    let frac : List Char × List Char :=
      match whole.2 with
      | '.' :: r => spanDecimal r
      | r => ([], r)
    if whole.1 = [] ∧ frac.1 = [] then none
    else
      match readExponent frac.2 with
      | none => none
      | some e =>
        let m := (readDigits 10 (whole.1 ++ frac.1) 0 0).1
        let e10 : Int := e - (frac.1.length : Int)
        some (decide (m = 0) || (decide (e10 < 0) && decide (m * 2 ^ 1075 ≤ 10 ^ (-e10).toNat)))

/-- The comparison `s <= 0` for a string `s`, which is converted by StringToNumber: white
space is trimmed at both ends; the empty string is `0`; `0x`, `0o` and `0b` literals take no
sign; a decimal literal takes one optional sign; anything else is `NaN`, for which the
comparison is false. -/
def stringLeZero (s : String) : Bool :=
  let cs := (trimStart (trimStart s.data).reverse).reverse
  match cs with
  | [] => true
  | '0' :: 'x' :: r => !r.isEmpty && allDigits 16 r && (readDigits 16 r 0 0).1 == 0
  | '0' :: 'X' :: r => !r.isEmpty && allDigits 16 r && (readDigits 16 r 0 0).1 == 0
  | '0' :: 'o' :: r => !r.isEmpty && allDigits 8 r && (readDigits 8 r 0 0).1 == 0
  | '0' :: 'O' :: r => !r.isEmpty && allDigits 8 r && (readDigits 8 r 0 0).1 == 0
  | '0' :: 'b' :: r => !r.isEmpty && allDigits 2 r && (readDigits 2 r 0 0).1 == 0
  | '0' :: 'B' :: r => !r.isEmpty && allDigits 2 r && (readDigits 2 r 0 0).1 == 0
  | '-' :: r => (unsignedIsZero r).isSome
  | '+' :: r => unsignedIsZero r == some true
  | r => unsignedIsZero r == some true

/-- The comparison `v <= 0`, in which `v` is converted to a primitive and then to a number:
`undefined` is `NaN` (false), `null` is `0`, `true` is `1`, `false` is `0`; an array or an
object is first converted to a string, which may throw. -/
def leZero : JsVal → Except JsError Bool
  | none => .ok false
  | some .null => .ok true
  | some (.bool b) => .ok (!b)
  | some (.num n) => .ok (decide (n ≤ 0))
  | some (.str s) => .ok (stringLeZero s)
  | some (.arr xs) =>
    match Json.joinElems xs with
    | .error e => .error e
    | .ok s => .ok (stringLeZero s)
  | some (.obj kvs) =>
    match (Json.obj kvs).toJsString with
    | .error e => .error e
    | .ok s => .ok (stringLeZero s)

/-! ## Base64 of a UTF-8 string -/

/-- The 64 characters of the standard Base64 alphabet. -/
def base64Alphabet : List Char :=
  "ABCDEFGHIJKLMNOPQRSTUVWXYZabcdefghijklmnopqrstuvwxyz0123456789+/".data

/-- The Base64 character of a 6-bit value. -/
def base64Char (n : Nat) : Char := base64Alphabet.getD (n % 64) 'A'

/-- Base64 of a byte list, three bytes at a time, padded with `=`. -/
def base64Bytes : List Nat → List Char
  | [] => []
  | [a] => [base64Char (a / 4), base64Char (a % 4 * 16), '=', '=']
  | [a, b] => [base64Char (a / 4), base64Char (a % 4 * 16 + b / 16), base64Char (b % 16 * 4), '=']
  | a :: b :: c :: rest =>
    base64Char (a / 4) :: base64Char (a % 4 * 16 + b / 16) ::
      base64Char (b % 16 * 4 + c / 64) :: base64Char (c % 64) :: base64Bytes rest

/-- The UTF-8 bytes of a string. -/
def utf8Bytes (s : String) : List Nat :=
  s.data.flatMap fun c => (String.utf8EncodeChar c).map UInt8.toNat

/-- The expression `Buffer.from(s).toString('base64')`. -/
def toBase64 (s : String) : String := String.mk (base64Bytes (utf8Bytes s))

/-! ## Requests, responses and the backends -/

/-- Process-wide configuration read from the environment at start-up. -/
structure Config where
  CORE_RPC_URL : String
  WALLET_RPC_URL : String
  WALLET_RPC_USER : String
  WALLET_RPC_PASSWORD : String
  NODE_ENV : Option String
  deriving Repr

/-- The routing table of the gateway: the route a request was dispatched to, with the
`:height` path segment of the one parameterised route. -/
inductive Route where
  | health
  | nodeInfo
  | nodeHeight
  | nodeBlockcount
  | nodeLastBlockHeader
  | nodeBlockHeaderByHeight (height : String)
  | walletBalance
  | walletHeight
  | walletTransfers
  | walletTransfer
  | walletOptimize
  | unmatched
  deriving Repr, DecidableEq

/-- The five Private-tier routes. -/
def Route.isPrivate : Route → Bool
  | .walletBalance | .walletHeight | .walletTransfers | .walletTransfer | .walletOptimize => true
  | _ => false

/-- An inbound request: the route it matches, the source address, the arrival time in
milliseconds, the clock rendered by `toISOString`, the `Authorization` header if present, and
what `bodyParser.json` makes of the body (`req.body`, or the error it raises). -/
structure Request where
  route : Route
  ip : String
  now : Nat
  timestamp : String
  authorization : Option String
  body : Except JsError Json

/-- What the gateway sends: the status and the JSON body (`none` when `res.json` was given
`undefined`). -/
structure Response where
  status : Nat
  body : JsVal
  deriving Repr

/-- An outbound `fetch`: URL, request headers and the JSON body posted. -/
structure RpcCall where
  url : String
  headers : List (String × String)
  body : Json
  deriving Repr

/-- What a backend does with a call: `fetch` rejects with an error, or an HTTP response
arrives with a status, a status text and a body on which `response.json()` succeeds or
throws. -/
inductive Reply where
  | failed (e : JsError)
  | http (status : Nat) (statusText : String) (json : Except JsError Json)

/-- The flag `response.ok`: the status is in the range 200 to 299. -/
def Reply.okStatus (status : Nat) : Bool := decide (200 ≤ status) && decide (status ≤ 299)

/-- One console line: the text and the record printed after it. -/
structure LogEntry where
  line : String
  record : List (String × JsVal)
  deriving Repr

/-- The observable effect of handling one request: the response, the backend calls made (in
order) and the console lines written. -/
structure Outcome where
  response : Response
  calls : List RpcCall
  log : List LogEntry
  deriving Repr

/-- JSON.stringify of an object literal: a property whose value is `undefined` is left
out. -/
def jsonOfLiteral (props : List (String × JsVal)) : Json :=
  .obj (props.filterMap fun p => p.2.map fun v => (p.1, v))

/-- The body `{ error: msg }`. -/
def errorBody (msg : String) : JsVal := some (.obj [("error", .str msg)])

/-- An outcome that only responds. -/
def respond (r : Response) : Outcome := { response := r, calls := [], log := [] }

/-! ## Rate limiting -/

/-- The options the source passes to `rateLimit`. -/
structure RateLimitOptions where
  windowMs : Nat
  max : Nat
  message : Json
  deriving Repr

/-- Per-address counter with the time at which its window ends. -/
structure Bucket where
  totalHits : Nat
  resetTime : Nat
  deriving Repr, DecidableEq

/-- The limiter's store: one bucket per source address. -/
abbrev RateStore := List (String × Bucket)

/-- The bucket of an address, if any. -/
def RateStore.find (s : RateStore) (key : String) : Option Bucket :=
  match s with
  | [] => none
  | (k, b) :: rest => if k = key then some b else RateStore.find rest key

/-- Modelled from the spec: the counting of `express-rate-limit`, which is imported and not
part of the sources.  A bucket is created on the first request of an address, counts the
requests of that address, and expires when the fixed window has elapsed, after which the next
request starts a new bucket. -/
def RateStore.increment (windowMs : Nat) (s : RateStore) (key : String) (now : Nat) :
    RateStore × Bucket :=
  let b : Bucket :=
    match s.find key with
    | some b => if now < b.resetTime then { b with totalHits := b.totalHits + 1 }
                else { totalHits := 1, resetTime := now + windowMs }
    | none => { totalHits := 1, resetTime := now + windowMs }
  ((key, b) :: s.filter (fun p => p.1 != key), b)

/-- Modelled from the spec: the middleware returned by `rateLimit(options)`, which is imported
and not part of the sources.  It counts the request against the caller's address and, once
the count exceeds `max` within the window, answers 429 with the configured message instead of
calling `next()` (`none`). -/
def rateLimit (opts : RateLimitOptions) (s : RateStore) (key : String) (now : Nat) :
    RateStore × Option Response :=
  let (s', b) := s.increment opts.windowMs key now
  if b.totalHits > opts.max then (s', some { status := 429, body := some opts.message })
  else (s', none)

/-- The two stores of the privacy-aware gateway. -/
structure AppState where
  limiter : RateStore
  walletLimiter : RateStore
  deriving Repr

namespace Privacy

/-- The general limiter: 100 requests per 15 minutes and address. -/
def limiter : RateLimitOptions :=
  { windowMs := 15 * 60 * 1000
    max := 100
    message := .obj [("error", .str "Too many requests from this IP, please try again later."),
                     ("retryAfter", .str "15 minutes")] }

/-- The wallet limiter: 10 requests per 15 minutes and address. -/
def walletLimiter : RateLimitOptions :=
  { windowMs := 15 * 60 * 1000
    max := 10
    message := .obj [("error", .str "Too many wallet requests from this IP, please try again later."),
                     ("retryAfter", .str "15 minutes")] }

/-! ## Logger -/

/-- The names `logger.info` deletes from its copy of the data. -/
def sensitiveKeys : List String := ["password", "private_key", "seed", "spend_key", "view_key"]

/-- The statement `delete o[k]`. -/
def deleteKey (k : String) (o : List (String × Json)) : List (String × Json) :=
  o.filter fun p => p.1 != k

/-- The two objects alive inside `logger.info`: the caller's `data` and the local
`sanitized`. -/
structure InfoFrame where
  data : List (String × Json)
  sanitized : List (String × Json)

/-- A `delete sanitized.k` statement: it acts on the local copy only. -/
def InfoFrame.deleteSanitized (k : String) (f : InfoFrame) : InfoFrame :=
  { f with sanitized := deleteKey k f.sanitized }

namespace logger

/-- The method `logger.info(msg, data)`: copies the entries of `data` into a fresh object,
deletes the five names from the copy and prints it.  Returns the line written and the
caller's object as it is after the call. -/
def info (msg : String) (data : List (String × Json) := []) :
    LogEntry × List (String × Json) :=
  let f : InfoFrame := { data := data, sanitized := data }
  let f := f.deleteSanitized "password"
  let f := f.deleteSanitized "private_key"
  let f := f.deleteSanitized "seed"
  let f := f.deleteSanitized "spend_key"
  let f := f.deleteSanitized "view_key"
  ({ line := "[INFO] " ++ msg, record := f.sanitized.map fun p => (p.1, some p.2) }, f.data)

/-- The method `logger.error(msg, error)`: prints the message and code of the error, and its
stack only when `NODE_ENV` is `development`. -/
def error (cfg : Config) (msg : String) (e : JsError) : LogEntry :=
  { line := "[ERROR] " ++ msg
    record := [("message", some (.str e.message)), ("code", e.code),
               ("stack", if cfg.NODE_ENV = some "development" then some (.str e.stack) else none)] }

end logger

/-! ## Middleware -/

/-- The value `expectedAuth` of `walletAuth`. -/
def expectedAuth (cfg : Config) : String :=
  "Basic " ++ toBase64 (cfg.WALLET_RPC_USER ++ ":" ++ cfg.WALLET_RPC_PASSWORD)

/-- The middleware `walletAuth`: `none` is `next()`. -/
def walletAuth (cfg : Config) (req : Request) : Option Response :=
  if cfg.WALLET_RPC_USER = "" ∨ cfg.WALLET_RPC_PASSWORD = "" then
    some { status := 500, body := errorBody "Wallet authentication not configured" }
  else
    match req.authorization with
    | none => some { status := 401, body := errorBody "Unauthorized" }
    | some auth =>
      if auth = "" ∨ auth ≠ expectedAuth cfg then
        some { status := 401, body := errorBody "Unauthorized" }
      else none

/-- The middleware `validateHeight` on the `:height` segment: `none` is `next()`. -/
def validateHeight (height : String) : Option Response :=
  match parseInt height with
  | none => some { status := 400, body := errorBody "Invalid height parameter" }
  | some h =>
    if h < 0 then some { status := 400, body := errorBody "Invalid height parameter" }
    else none

/-! ## JSON-RPC helpers -/

/-- The JSON-RPC 2.0 envelope both helpers post; the request id is the string `'1'`. -/
def envelope (method : String) (params : Json) : Json :=
  .obj [("jsonrpc", .str "2.0"), ("id", .str "1"), ("method", .str method), ("params", params)]

/-- What the body of the `try` block of `coreJsonRpc` / `walletJsonRpc` does with the
backend's reply: it returns `data.result` or throws. -/
def rpcResult (reply : Reply) : Except JsError JsVal :=
  match reply with
  | .failed e => .error e
  | .http status statusText json =>
    if !Reply.okStatus status then
      .error (newError ("HTTP " ++ toString status ++ ": " ++ statusText))
    else
      match json with
      | .error e => .error e
      | .ok data =>
        match getProp (some data) "error" with
        | .error e => .error e
        | .ok err =>
          if truthy err then
            match getProp err "message" with
            | .error e => .error e
            | .ok m =>
              match jsToString m with
              | .error e => .error e
              | .ok text => .error (newError ("RPC Error: " ++ text))
          else getProp (some data) "result"

/-- One run of a JSON-RPC helper: the call posted, what the helper returns or throws, and the
lines it logs. -/
structure RpcRun where
  call : RpcCall
  result : Except JsError JsVal
  log : List LogEntry

/-- The `fetch` of `coreJsonRpc`: a POST of the envelope to the node's `/json_rpc`. -/
def coreCall (cfg : Config) (method : String) (params : Json) : RpcCall :=
  { url := cfg.CORE_RPC_URL ++ "/json_rpc"
    headers := [("Content-Type", "application/json")]
    body := envelope method params }

/-- The `fetch` of `walletJsonRpc`: a POST of the envelope to the wallet URL, with the
configured credential as Basic authorization. -/
def walletCall (cfg : Config) (method : String) (params : Json) : RpcCall :=
  { url := cfg.WALLET_RPC_URL
    headers := [("Content-Type", "application/json"),
                ("Authorization", "Basic " ++ toBase64 (cfg.WALLET_RPC_USER ++ ":" ++ cfg.WALLET_RPC_PASSWORD))]
    body := envelope method params }

/-- The lines the `catch` block of a helper logs before it rethrows. -/
def rpcLog (cfg : Config) (msg : String) : Except JsError JsVal → List LogEntry
  | .ok _ => []
  | .error e => [logger.error cfg msg e]

/-- The helper `coreJsonRpc(method, params)`. -/
def coreJsonRpc (cfg : Config) (backend : RpcCall → Reply) (method : String)
    (params : Json := .obj []) : RpcRun :=
  let call := coreCall cfg method params
  let result := rpcResult (backend call)
  { call := call, result := result, log := rpcLog cfg ("Core RPC call failed: " ++ method) result }

/-- The helper `walletJsonRpc(method, params)`. -/
def walletJsonRpc (cfg : Config) (backend : RpcCall → Reply) (method : String)
    (params : Json := .obj []) : RpcRun :=
  let call := walletCall cfg method params
  let result := rpcResult (backend call)
  { call := call, result := result, log := rpcLog cfg ("Wallet RPC call failed: " ++ method) result }

/-! ## Route handlers -/

/-- The `try`/`catch` of a handler around one helper run: `onResult` is the rest of the `try`
block (it builds the body given to `res.json`, and may throw); the `catch` logs `logMsg` and
answers 500 with `clientMsg`. -/
def finish (cfg : Config) (run : RpcRun) (onResult : JsVal → Except JsError JsVal)
    (logMsg clientMsg : String) : Outcome :=
  match run.result.bind onResult with
  | .ok body =>
    { response := { status := 200, body := body }, calls := [run.call], log := run.log }
  | .error e =>
    { response := { status := 500, body := errorBody clientMsg }
      calls := [run.call]
      log := run.log ++ [logger.error cfg logMsg e] }

/-- The allow-list of `GET /v1/node/info`. -/
def nodeInfoFields : List String :=
  ["height", "difficulty", "tx_count", "alt_blocks_count", "outgoing_connections_count",
   "white_peerlist_size", "grey_peerlist_size"]

/-- The object literal handed to `res.json` by `GET /v1/node/info`, before serialisation:
seven properties, each read from `info`. -/
def nodeInfoLiteral (info : JsVal) : Except JsError (List (String × JsVal)) :=
  match getProp info "height" with
  | .error e => .error e
  | .ok height =>
  match getProp info "difficulty" with
  | .error e => .error e
  | .ok difficulty =>
  match getProp info "tx_count" with
  | .error e => .error e
  | .ok tx_count =>
  match getProp info "alt_blocks_count" with
  | .error e => .error e
  | .ok alt_blocks_count =>
  match getProp info "outgoing_connections_count" with
  | .error e => .error e
  | .ok outgoing_connections_count =>
  match getProp info "white_peerlist_size" with
  | .error e => .error e
  | .ok white_peerlist_size =>
  match getProp info "grey_peerlist_size" with
  | .error e => .error e
  | .ok grey_peerlist_size =>
    .ok [("height", height), ("difficulty", difficulty), ("tx_count", tx_count),
         ("alt_blocks_count", alt_blocks_count),
         ("outgoing_connections_count", outgoing_connections_count),
         ("white_peerlist_size", white_peerlist_size),
         ("grey_peerlist_size", grey_peerlist_size)]

/-- The body `GET /v1/node/info` sends for a payload `info`. -/
def nodeInfoBody (info : JsVal) : Except JsError JsVal :=
  match nodeInfoLiteral info with
  | .error e => .error e
  | .ok props => .ok (some (jsonOfLiteral props))

/-- The body `{ k: v.k }` of the height and block-count handlers. -/
def rewrap (k : String) (v : JsVal) : Except JsError JsVal :=
  match getProp v k with
  | .error e => .error e
  | .ok x => .ok (some (jsonOfLiteral [(k, x)]))

/-- Handler of `GET /v1/health`. -/
def health (req : Request) : Outcome :=
  respond { status := 200, body := some (.obj [("ok", .bool true), ("timestamp", .str req.timestamp)]) }

/-- Handler of `GET /v1/node/info`. -/
def nodeInfo (cfg : Config) (backend : RpcCall → Reply) : Outcome :=
  finish cfg (coreJsonRpc cfg backend "getinfo") nodeInfoBody
    "Failed to get node info" "Failed to get node information"

/-- Handler of `GET /v1/node/height`. -/
def nodeHeight (cfg : Config) (backend : RpcCall → Reply) : Outcome :=
  finish cfg (coreJsonRpc cfg backend "getheight") (rewrap "height")
    "Failed to get node height" "Failed to get node height"

/-- Handler of `GET /v1/node/blockcount`. -/
def nodeBlockcount (cfg : Config) (backend : RpcCall → Reply) : Outcome :=
  finish cfg (coreJsonRpc cfg backend "getblockcount") (rewrap "count")
    "Failed to get block count" "Failed to get block count"

/-- Handler of `GET /v1/node/last_block_header`. -/
def nodeLastBlockHeader (cfg : Config) (backend : RpcCall → Reply) : Outcome :=
  finish cfg (coreJsonRpc cfg backend "getlastblockheader") .ok
    "Failed to get last block header" "Failed to get last block header"

/-- The params `{ height: parseInt(req.params.height) }` as serialised (`NaN` is written as
`null`). -/
def heightParams (height : String) : Json :=
  .obj [("height", match parseInt height with
                   | some n => .num n
                   | none => .null)]

/-- Handler of `GET /v1/node/block_header_by_height/:height` (after `validateHeight`). -/
def nodeBlockHeaderByHeight (cfg : Config) (backend : RpcCall → Reply) (height : String) :
    Outcome :=
  finish cfg (coreJsonRpc cfg backend "getblockheaderbyheight" (heightParams height)) .ok
    "Failed to get block header by height" "Failed to get block header"

/-- Handler of `GET /v1/wallet/balance`. -/
def walletBalance (cfg : Config) (backend : RpcCall → Reply) : Outcome :=
  finish cfg (walletJsonRpc cfg backend "getbalance") .ok
    "Failed to get wallet balance" "Failed to get wallet balance"

/-- Handler of `GET /v1/wallet/height`. -/
def walletHeight (cfg : Config) (backend : RpcCall → Reply) : Outcome :=
  finish cfg (walletJsonRpc cfg backend "get_height") (rewrap "height")
    "Failed to get wallet height" "Failed to get wallet height"

/-- Handler of `POST /v1/wallet/transfers`. -/
def walletTransfers (cfg : Config) (backend : RpcCall → Reply) (body : Json) : Outcome :=
  finish cfg (walletJsonRpc cfg backend "get_transfers" body) .ok
    "Failed to get transfers" "Failed to get transfers"

/-- The `for` loop of the transfer handler over the destinations: `.ok (some r)` is an early
`return res.status(400)...`, `.ok none` means the loop ran to its end, `.error` is a throw. -/
def checkDestinations : List Json → Except JsError (Option Response)
  | [] => .ok none
  | dest :: rest =>
    match getProp (some dest) "address" with
    | .error e => .error e
    | .ok address =>
      if !truthy address then
        .ok (some { status := 400, body := errorBody "Each destination must have address and amount" })
      else
        match getProp (some dest) "amount" with
        | .error e => .error e
        | .ok amount =>
          if !truthy amount then
            .ok (some { status := 400, body := errorBody "Each destination must have address and amount" })
          else
            match leZero amount with
            | .error e => .error e
            | .ok true => .ok (some { status := 400, body := errorBody "Amount must be positive" })
            | .ok false => checkDestinations rest

/-- The validation at the head of the transfer handler, from the destructuring of `req.body`
to the end of the loop. -/
def validateTransfer (body : Json) : Except JsError (Option Response) :=
  match getProp (some body) "destinations" with
  | .error e => .error e
  | .ok destinations =>
    match destinations with
    | some (.arr dests) =>
      if dests.length = 0 then
        .ok (some { status := 400, body := errorBody "Invalid destinations array" })
      else checkDestinations dests
    | _ => .ok (some { status := 400, body := errorBody "Invalid destinations array" })

/-- Handler of `POST /v1/wallet/transfer`. -/
def walletTransfer (cfg : Config) (backend : RpcCall → Reply) (body : Json) : Outcome :=
  match validateTransfer body with
  | .error e =>
    { response := { status := 500, body := errorBody "Failed to create transfer" }
      calls := []
      log := [logger.error cfg "Failed to create transfer" e] }
  | .ok (some r) => respond r
  | .ok none =>
    finish cfg (walletJsonRpc cfg backend "transfer" body) .ok
      "Failed to create transfer" "Failed to create transfer"

/-- Handler of `POST /v1/wallet/optimize`. -/
def walletOptimize (cfg : Config) (backend : RpcCall → Reply) (body : Json) : Outcome :=
  finish cfg (walletJsonRpc cfg backend "optimize" body) .ok
    "Failed to optimize wallet" "Failed to optimize wallet"

/-- The final handler of a route, the one that follows the route's own middleware. -/
def handler (cfg : Config) (backend : RpcCall → Reply) (req : Request) (body : Json) : Outcome :=
  match req.route with
  | .health => health req
  | .nodeInfo => nodeInfo cfg backend
  | .nodeHeight => nodeHeight cfg backend
  | .nodeBlockcount => nodeBlockcount cfg backend
  | .nodeLastBlockHeader => nodeLastBlockHeader cfg backend
  | .nodeBlockHeaderByHeight h => nodeBlockHeaderByHeight cfg backend h
  | .walletBalance => walletBalance cfg backend
  | .walletHeight => walletHeight cfg backend
  | .walletTransfers => walletTransfers cfg backend body
  | .walletTransfer => walletTransfer cfg backend body
  | .walletOptimize => walletOptimize cfg backend body
  | .unmatched => respond { status := 404, body := errorBody "Endpoint not found" }

/-- The middleware registered on the matched route ahead of its handler, run in order:
`validateHeight` for the block-header route, `walletAuth` and then `walletLimiter` for each
wallet route, none elsewhere.  The result is the response of the middleware that stopped the
request (`none` when each called `next()`), with the wallet limiter's store. -/
def routeMiddleware (cfg : Config) (ws : RateStore) (req : Request) :
    Option Response × RateStore :=
  match req.route with
  | .nodeBlockHeaderByHeight h => (validateHeight h, ws)
  | .walletBalance | .walletHeight | .walletTransfers | .walletTransfer | .walletOptimize =>
    match walletAuth cfg req with
    | some r => (some r, ws)
    | none =>
      match rateLimit walletLimiter ws req.ip req.now with
      | (ws', r) => (r, ws')
  | _ => (none, ws)

/-- The chain registered for the matched route, run on a request whose body was parsed to
`body`: the route's middleware, then its handler.  Returns the outcome and the wallet
limiter's store. -/
def routeChain (cfg : Config) (backend : RpcCall → Reply) (ws : RateStore) (req : Request)
    (body : Json) : Outcome × RateStore :=
  match routeMiddleware cfg ws req with
  | (some r, ws') => (respond r, ws')
  | (none, ws') => (handler cfg backend req body, ws')

/-- The error-handling middleware registered last. -/
def errorMiddleware (cfg : Config) (e : JsError) : Outcome :=
  { response := { status := 500, body := errorBody "Internal server error" }
    calls := []
    log := [logger.error cfg "Unhandled error" e] }

/-- The application: `helmet` (response headers only, not modelled), the general limiter,
`bodyParser.json`, then the matched route's chain; an error raised by the body parser goes to
the error middleware. -/
def app (cfg : Config) (backend : RpcCall → Reply) (st : AppState) (req : Request) :
    Outcome × AppState :=
  match rateLimit limiter st.limiter req.ip req.now with
  | (gs, some r) => (respond r, { st with limiter := gs })
  | (gs, none) =>
    match req.body with
    | .error e => (errorMiddleware cfg e, { st with limiter := gs })
    | .ok body =>
      let (out, ws) := routeChain cfg backend st.walletLimiter req body
      (out, { limiter := gs, walletLimiter := ws })

/-- Runs a list of requests in order, threading the limiter stores; returns the outcomes. -/
def serve (cfg : Config) (backend : RpcCall → Reply) : AppState → List Request → List Outcome
  | _, [] => []
  | st, req :: rest =>
    let (out, st') := app cfg backend st req
    out :: serve cfg backend st' rest

end Privacy

/-! ## The gateway of `server.js` -/

namespace Plain

/-- The function `walletHeaders()`: Basic authorization when a user name or a password is
configured. -/
def walletHeaders (cfg : Config) : List (String × String) :=
  if cfg.WALLET_RPC_USER ≠ "" ∨ cfg.WALLET_RPC_PASSWORD ≠ "" then
    [("Authorization", "Basic " ++ toBase64 (cfg.WALLET_RPC_USER ++ ":" ++ cfg.WALLET_RPC_PASSWORD))]
  else []

/-- The JSON-RPC 2.0 envelope both helpers post; the request id is the number `1`. -/
def envelope (method : String) (params : Json) : Json :=
  .obj [("jsonrpc", .str "2.0"), ("id", .num 1), ("method", .str method), ("params", params)]

/-- The `fetch` of `coreJsonRpc`. -/
def coreCall (cfg : Config) (method : String) (params : Json) : RpcCall :=
  { url := cfg.CORE_RPC_URL ++ "/json_rpc"
    headers := [("Content-Type", "application/json")]
    body := envelope method params }

/-- The `fetch` of `walletJsonRpc`. -/
def walletCall (cfg : Config) (method : String) (params : Json) : RpcCall :=
  { url := cfg.WALLET_RPC_URL
    headers := ("Content-Type", "application/json") :: walletHeaders cfg
    body := envelope method params }

/-- What a helper of `server.js` does with the backend's reply: the status is not looked at;
the body is parsed; a truthy `error` field is thrown as an `Error` with the field's message
(`fallback` when the message is falsy) and with the field's code; otherwise `data.result` is
returned. -/
def rpcResult (fallback : String) (reply : Reply) : Except JsError JsVal :=
  match reply with
  | .failed e => .error e
  | .http _ _ json =>
    match json with
    | .error e => .error e
    | .ok data =>
      match getProp (some data) "error" with
      | .error e => .error e
      | .ok err =>
        if truthy err then
          match getProp err "message" with
          | .error e => .error e
          | .ok m =>
            match (if truthy m then jsToString m else .ok fallback) with
            | .error e => .error e
            | .ok text =>
              match getProp err "code" with
              | .error e => .error e
              | .ok code => .error { newError text with code := code }
        else getProp (some data) "result"

/-- The helper `coreJsonRpc(method, params)`: the call posted and what it returns or throws. -/
def coreJsonRpc (cfg : Config) (backend : RpcCall → Reply) (method : String)
    (params : Json := .obj []) : RpcCall × Except JsError JsVal :=
  (coreCall cfg method params, rpcResult "Core RPC error" (backend (coreCall cfg method params)))

/-- The helper `walletJsonRpc(method, params)`: the call posted and what it returns or
throws. -/
def walletJsonRpc (cfg : Config) (backend : RpcCall → Reply) (method : String)
    (params : Json := .obj []) : RpcCall × Except JsError JsVal :=
  (walletCall cfg method params,
    rpcResult "Wallet RPC error" (backend (walletCall cfg method params)))

/-- The shape shared by the eight JSON-RPC handlers of `server.js` (block count, last block
header, block header by height, and the five wallet routes): the result of the helper is sent
as it is, and a thrown error is answered 502 with its message and code. -/
def handler (run : RpcCall × Except JsError JsVal) : Outcome :=
  match run.2 with
  | .ok result => { response := { status := 200, body := result }, calls := [run.1], log := [] }
  | .error e =>
    { response := { status := 502
                    body := some (jsonOfLiteral [("error", some (.str e.message)), ("code", e.code)]) }
      calls := [run.1]
      log := [] }

end Plain

/-! ## Concrete inputs used by the examples -/

/-- A configuration with the wallet credential `user` / `pass`. -/
def demoConfig : Config :=
  { CORE_RPC_URL := "http://127.0.0.1:8181"
    WALLET_RPC_URL := "http://127.0.0.1:8070/json_rpc"
    WALLET_RPC_USER := "user"
    WALLET_RPC_PASSWORD := "pass"
    NODE_ENV := none }

/-- A configuration with no wallet credential. -/
def bareConfig : Config :=
  { demoConfig with WALLET_RPC_USER := "", WALLET_RPC_PASSWORD := "" }

/-- A request to `route` from address `10.0.0.1` at time 0, without credentials and with an
empty JSON body. -/
def demoRequest (route : Route) : Request :=
  { route := route, ip := "10.0.0.1", now := 0, timestamp := "2024-01-01T00:00:00.000Z"
    authorization := none, body := .ok (.obj []) }

/-- The state of a gateway that has served nothing yet. -/
def freshState : AppState := { limiter := [], walletLimiter := [] }

/-- A backend that answers every call with HTTP 200 and the given JSON-RPC result. -/
def okBackend (result : Json) : RpcCall → Reply :=
  fun _ => .http 200 "OK" (.ok (.obj [("jsonrpc", .str "2.0"), ("id", .str "1"), ("result", result)]))

/-- A backend that refuses every connection. -/
def downBackend : RpcCall → Reply :=
  fun _ => .failed { name := "FetchError", message := "connect ECONNREFUSED 127.0.0.1:8181"
                     code := some (.str "ECONNREFUSED"), stack := "FetchError: connect ECONNREFUSED" }

/-- The `getinfo` payload of the end-to-end scenario: the seven public fields and `peer_id`. -/
def scenarioInfo : Json :=
  .obj [("height", .num 10), ("difficulty", .num 5), ("tx_count", .num 3),
        ("alt_blocks_count", .num 0), ("outgoing_connections_count", .num 2),
        ("white_peerlist_size", .num 1), ("grey_peerlist_size", .num 0),
        ("peer_id", .str "secret")]

/-! ## Notions used to state the properties -/

/-- The general limiter and the body parser hand the request on to its route. -/
def Privacy.reachesRoute (st : AppState) (req : Request) : Prop :=
  (rateLimit Privacy.limiter st.limiter req.ip req.now).2 = none ∧ req.body.toBool = true

/-- The credential header a client of `demoConfig` sends: Basic `user:pass`. -/
def demoAuthorization : String := "Basic dXNlcjpwYXNz"

/-- The message of the `catch` block of each handler of the privacy-aware gateway. -/
def Privacy.failureMessage : Route → String
  | .nodeInfo => "Failed to get node information"
  | .nodeHeight => "Failed to get node height"
  | .nodeBlockcount => "Failed to get block count"
  | .nodeLastBlockHeader => "Failed to get last block header"
  | .nodeBlockHeaderByHeight _ => "Failed to get block header"
  | .walletBalance => "Failed to get wallet balance"
  | .walletHeight => "Failed to get wallet height"
  | .walletTransfers => "Failed to get transfers"
  | .walletTransfer => "Failed to create transfer"
  | .walletOptimize => "Failed to optimize wallet"
  | .health => ""
  | .unmatched => ""

/-- The body has the shape `{error: string, code?: any}`: an object with a string `error`
entry and no entry other than `error` and `code`. -/
def isErrorShape : JsVal → Bool
  | some (.obj kvs) =>
    (match Json.lookup "error" kvs with
     | some (.str _) => true
     | _ => false) &&
    kvs.all fun p => p.1 == "error" || p.1 == "code"
  | _ => false

/-- A backend that answers every call with HTTP 200 and a JSON-RPC error object. -/
def rpcErrorBackend : RpcCall → Reply :=
  fun _ => .http 200 "OK" (.ok (.obj [("jsonrpc", .str "2.0"), ("id", .str "1"),
    ("error", .obj [("code", .num (-32601)), ("message", .str "Method not found")])]))

/-- The state of the gateway after it has served the requests in order. -/
def Privacy.stateAfter (cfg : Config) (backend : RpcCall → Reply) (st : AppState)
    (reqs : List Request) : AppState :=
  reqs.foldl (fun s q => (Privacy.app cfg backend s q).2) st

/-- The store holds no bucket of the address that is still counting at time `t`. -/
def noLiveBucket (s : RateStore) (key : String) (t : Nat) : Prop :=
  ∀ b, s.find key = some b → b.resetTime ≤ t

/-- A request to a wallet route that carries the configured credential and a body the parser
accepts. -/
def Privacy.authenticatedWallet (cfg : Config) (q : Request) : Prop :=
  q.route.isPrivate = true ∧ Privacy.walletAuth cfg q = none ∧ q.body.toBool = true

/-- The requests all come from address `ip` inside the window that the first of them opens
at time `t0`. -/
def inOneWindow (windowMs : Nat) (ip : String) (t0 : Nat) (reqs : List Request) : Prop :=
  (∀ q ∈ reqs, q.ip = ip ∧ t0 ≤ q.now ∧ q.now < t0 + windowMs) ∧
    ∀ q ∈ reqs.head?, q.now = t0

/-- The request is handed to the handler of its route: the general limiter, the body parser
and the route's own middleware all let it through. -/
def Privacy.handlerRuns (cfg : Config) (st : AppState) (req : Request) : Bool :=
  (rateLimit Privacy.limiter st.limiter req.ip req.now).2.isNone && req.body.toBool &&
    (Privacy.routeMiddleware cfg st.walletLimiter req).1.isNone

/-- Among the requests served in order from state `st`, the number of those satisfying `p`
that are handed to their handler. -/
def Privacy.countHandled (cfg : Config) (backend : RpcCall → Reply) (p : Request → Bool) :
    AppState → List Request → Nat
  | _, [] => 0
  | st, q :: rest =>
    (if p q && Privacy.handlerRuns cfg st q then 1 else 0) +
      Privacy.countHandled cfg backend p (Privacy.app cfg backend st q).2 rest

/-- The store holds a bucket of the address with `k` hits that keeps counting until `T` at
least. -/
def countingBucket (s : RateStore) (key : String) (T k : Nat) : Prop :=
  ∃ b, s.find key = some b ∧ b.totalHits = k ∧ T ≤ b.resetTime

/-- A request to `GET /v1/wallet/balance` carrying the credential of `demoConfig`. -/
def demoWalletRequest : Request :=
  { demoRequest .walletBalance with authorization := some demoAuthorization }

theorem Json.lookup_filterMap (f : String → JsVal) (ks : List String) (k : String) :
    Json.lookup k (ks.filterMap fun k' => (f k').map fun v => (k', v)) =
      if k ∈ ks then f k else none := by
  induction ks with
  | nil => simp [Json.lookup]
  | cons a rest ih =>
    by_cases ha : a = k
    · subst ha
      cases hf : f a with
      | none => simp [List.filterMap_cons, hf, ih]
      | some v => simp [List.filterMap_cons, hf, Json.lookup]
    · have hk : ¬ k = a := fun h => ha h.symm
      cases hf : f a with
      | none => simp [List.filterMap_cons, hf, ih, hk]
      | some v => simp [List.filterMap_cons, hf, Json.lookup, ha, ih, hk]

theorem Privacy.nodeInfoLiteral_ok (info : Json) (h : info ≠ .null) :
    Privacy.nodeInfoLiteral (some info) =
      .ok (Privacy.nodeInfoFields.map fun k => (k, info.field k)) := by
  cases info <;> simp_all [Privacy.nodeInfoLiteral, getProp, Privacy.nodeInfoFields, Json.field]

theorem Privacy.nodeInfoBody_ok (info : Json) (h : info ≠ .null) :
    Privacy.nodeInfoBody (some info) =
      .ok (some (.obj (Privacy.nodeInfoFields.filterMap fun k => (info.field k).map fun v => (k, v)))) := by
  rw [Privacy.nodeInfoBody, Privacy.nodeInfoLiteral_ok info h]
  simp [jsonOfLiteral, List.filterMap_map, Function.comp_def]

theorem Privacy.app_of_reachesRoute (cfg : Config) (backend : RpcCall → Reply) (st : AppState)
    (req : Request) (h : Privacy.reachesRoute st req) :
    ∃ body, req.body = .ok body ∧
      (Privacy.app cfg backend st req).1 =
        (Privacy.routeChain cfg backend st.walletLimiter req body).1 := by
  obtain ⟨h1, h2⟩ := h
  cases hb : req.body with
  | error e => simp [hb, Except.toBool] at h2
  | ok body =>
    refine ⟨body, rfl, ?_⟩
    unfold Privacy.app
    cases hr : rateLimit Privacy.limiter st.limiter req.ip req.now with
    | mk gs r =>
      rw [hr] at h1
      simp only at h1
      subst h1
      simp [hb]

/-- C1 (as stated, refuted): when the `getinfo` payload is `{height: 10}`, lacking six of the
seven fields, the body of `GET /v1/node/info` is `{height: 10}`, whose field set is not the
seven-name allow-list. -/
theorem node_info_missing_fields_counterexample :
    (Privacy.app demoConfig (okBackend (.obj [("height", .num 10)])) freshState
        (demoRequest .nodeInfo)).1.response.body = some (.obj [("height", .num 10)]) ∧
    Json.keys (.obj [("height", .num 10)]) ≠ Privacy.nodeInfoFields := by
  constructor
  · rfl
  · decide

/-- C1 (amended): for every non-null `getinfo` payload `info` that `coreJsonRpc` returns, on
a request that reaches the route, `GET /v1/node/info` answers 200; the object literal given to
`res.json` has exactly the seven allow-listed names, and the body sent has exactly those of
them that `info` defines, each with the value `info` holds, and no other field (so `peer_id`
never appears); when `info` defines all seven the field set is the whole allow-list. -/
theorem node_info_body_allow_listed (cfg : Config) (backend : RpcCall → Reply) (st : AppState)
    (req : Request) (info : Json)
    (hroute : req.route = .nodeInfo)
    (hreach : Privacy.reachesRoute st req)
    (hinfo : (Privacy.coreJsonRpc cfg backend "getinfo").result = .ok (some info))
    (hnull : info ≠ .null) :
    (Privacy.app cfg backend st req).1.response.status = 200 ∧
    (Privacy.nodeInfoLiteral (some info)).map (List.map Prod.fst) = .ok Privacy.nodeInfoFields ∧
    (Privacy.app cfg backend st req).1.response.body =
      some (.obj (Privacy.nodeInfoFields.filterMap fun k => (info.field k).map fun v => (k, v))) ∧
    (∀ k, ((Privacy.app cfg backend st req).1.response.body.bind fun b => b.field k) =
      if k ∈ Privacy.nodeInfoFields then info.field k else none) ∧
    ((Privacy.app cfg backend st req).1.response.body.map Json.keys =
      some (Privacy.nodeInfoFields.filter fun k => (info.field k).isSome)) ∧
    ((∀ k ∈ Privacy.nodeInfoFields, (info.field k).isSome = true) →
      (Privacy.app cfg backend st req).1.response.body.map Json.keys =
        some Privacy.nodeInfoFields) := by
  obtain ⟨body, _, happ⟩ := Privacy.app_of_reachesRoute cfg backend st req hreach
  have hout : (Privacy.app cfg backend st req).1.response =
      { status := 200
        body := some (.obj (Privacy.nodeInfoFields.filterMap fun k =>
          (info.field k).map fun v => (k, v))) } := by
    rw [happ]
    simp [Privacy.routeChain, Privacy.routeMiddleware, hroute, Privacy.handler,
      Privacy.nodeInfo, Privacy.finish, hinfo,
      Except.bind, Privacy.nodeInfoBody_ok info hnull]
  have hkeys : ∀ ks : List String,
      (ks.filterMap fun k => (info.field k).map fun v => (k, v)).map Prod.fst =
        ks.filter fun k => (info.field k).isSome := by
    intro ks
    induction ks with
    | nil => rfl
    | cons a rest ih =>
      cases hf : info.field a <;> simp [List.filterMap_cons, List.filter_cons, hf, ih]
  refine ⟨by rw [hout], ?_, by rw [hout], ?_, ?_, ?_⟩
  · rw [Privacy.nodeInfoLiteral_ok info hnull]
    simp [Except.map, Privacy.nodeInfoFields]
  · intro k
    rw [hout]
    simp only [Option.bind_some, Json.field]
    exact Json.lookup_filterMap (fun k => info.field k) Privacy.nodeInfoFields k
  · rw [hout]
    simp only [Option.map_some', Json.keys, hkeys]
  · intro hall
    rw [hout]
    simp only [Option.map_some', Json.keys, hkeys]
    congr 1
    exact List.filter_eq_self.mpr hall

/-- C1 witness: the end-to-end scenario, in which the backend adds `peer_id`. -/
theorem node_info_body_allow_listed_witness :
    (Privacy.app demoConfig (okBackend scenarioInfo) freshState
        (demoRequest .nodeInfo)).1.response.body =
      some (.obj [("height", .num 10), ("difficulty", .num 5), ("tx_count", .num 3),
        ("alt_blocks_count", .num 0), ("outgoing_connections_count", .num 2),
        ("white_peerlist_size", .num 1), ("grey_peerlist_size", .num 0)]) :=
  (node_info_body_allow_listed demoConfig (okBackend scenarioInfo) freshState
    (demoRequest .nodeInfo) scenarioInfo rfl ⟨rfl, rfl⟩ rfl (by simp [scenarioInfo])).2.2.1

theorem Privacy.walletAuth_unauthorized (cfg : Config) (req : Request)
    (huser : cfg.WALLET_RPC_USER ≠ "") (hpass : cfg.WALLET_RPC_PASSWORD ≠ "")
    (hauth : req.authorization ≠ some (Privacy.expectedAuth cfg)) :
    Privacy.walletAuth cfg req = some { status := 401, body := errorBody "Unauthorized" } := by
  unfold Privacy.walletAuth
  rw [if_neg (by simp [huser, hpass])]
  cases ha : req.authorization with
  | none => rfl
  | some auth =>
    have hne : auth ≠ Privacy.expectedAuth cfg := by
      intro h
      exact hauth (by rw [ha, h])
    simp [hne]

theorem Privacy.walletAuth_unconfigured (cfg : Config) (req : Request)
    (h : cfg.WALLET_RPC_USER = "" ∨ cfg.WALLET_RPC_PASSWORD = "") :
    Privacy.walletAuth cfg req =
      some { status := 500, body := errorBody "Wallet authentication not configured" } := by
  unfold Privacy.walletAuth
  rw [if_pos h]

theorem Privacy.routeChain_of_walletAuth (cfg : Config) (backend : RpcCall → Reply)
    (ws : RateStore) (req : Request) (body : Json) (r : Response)
    (hroute : req.route.isPrivate = true) (hr : Privacy.walletAuth cfg req = some r) :
    Privacy.routeChain cfg backend ws req body = (respond r, ws) := by
  unfold Privacy.routeChain Privacy.routeMiddleware
  cases hq : req.route <;> simp [hq, Route.isPrivate] at hroute <;> simp [hr]

theorem Privacy.app_of_walletAuth (cfg : Config) (backend : RpcCall → Reply) (st : AppState)
    (req : Request) (r : Response)
    (hroute : req.route.isPrivate = true) (hr : Privacy.walletAuth cfg req = some r) :
    (Privacy.app cfg backend st req).1.calls = [] ∧
    (Privacy.reachesRoute st req → (Privacy.app cfg backend st req).1.response = r) ∧
    ((Privacy.app cfg backend st req).1.response.status = 429 ∨
      (Privacy.app cfg backend st req).1.response.status = 500 ∨
      (Privacy.app cfg backend st req).1.response = r) := by
  have hchain := fun body =>
    Privacy.routeChain_of_walletAuth cfg backend st.walletLimiter req body r hroute hr
  refine ⟨?_, ?_, ?_⟩
  · unfold Privacy.app
    cases hrl : rateLimit Privacy.limiter st.limiter req.ip req.now with
    | mk gs o =>
      cases o with
      | some r' => rfl
      | none =>
        cases hb : req.body with
        | error e => rfl
        | ok body => simp [hchain body, respond]
  · intro hreach
    obtain ⟨body, _, happ⟩ := Privacy.app_of_reachesRoute cfg backend st req hreach
    rw [happ, hchain body]
    rfl
  · unfold Privacy.app
    cases hrl : rateLimit Privacy.limiter st.limiter req.ip req.now with
    | mk gs o =>
      cases o with
      | some r' =>
        left
        have : r'.status = 429 := by
          unfold rateLimit at hrl
          simp only at hrl
          split at hrl
          · simp only [Prod.mk.injEq, Option.some.injEq] at hrl
            rw [← hrl.2]
          · simp at hrl
        simpa [respond] using this
      | none =>
        cases hb : req.body with
        | error e => right; left; rfl
        | ok body => right; right; simp [hchain body, respond]

/-- C2 (as stated, refuted): with the credential `user`/`pass` configured, the 101st request
of one address within a window to `GET /v1/wallet/balance`, sent without an `Authorization`
header, is answered 429 by the general limiter, not 401 (the first of them is answered
401). -/
theorem wallet_unauthorized_over_quota_counterexample :
    (demoRequest .walletBalance).authorization = none ∧
    ((Privacy.serve demoConfig downBackend freshState
        (List.replicate 101 (demoRequest .walletBalance))).head?.map
          fun o => o.response.status) = some 401 ∧
    ((Privacy.serve demoConfig downBackend freshState
        (List.replicate 101 (demoRequest .walletBalance))).getLast?.map
          fun o => o.response.status) = some 429 := by
  refine ⟨rfl, rfl, ?_⟩
  decide

/-- C2 (amended): with a wallet credential configured, for each of the five Private-tier
routes and every request whose `Authorization` header is absent or differs from the Basic
encoding of the configured `username:password`: no backend call is made, whatever the state
of the limiters; the route's middleware chain answers 401 `Unauthorized`; and so does the
gateway for every such request that the general limiter and the body parser hand to the
route. -/
theorem wallet_unauthorized_no_backend_call (cfg : Config) (backend : RpcCall → Reply)
    (st : AppState) (req : Request)
    (huser : cfg.WALLET_RPC_USER ≠ "") (hpass : cfg.WALLET_RPC_PASSWORD ≠ "")
    (hroute : req.route.isPrivate = true)
    (hauth : req.authorization ≠ some (Privacy.expectedAuth cfg)) :
    (Privacy.app cfg backend st req).1.calls = [] ∧
    (∀ ws body, (Privacy.routeChain cfg backend ws req body).1 =
      respond { status := 401, body := errorBody "Unauthorized" }) ∧
    (Privacy.reachesRoute st req →
      (Privacy.app cfg backend st req).1.response =
        { status := 401, body := errorBody "Unauthorized" }) := by
  have hr := Privacy.walletAuth_unauthorized cfg req huser hpass hauth
  have h := Privacy.app_of_walletAuth cfg backend st req _ hroute hr
  refine ⟨h.1, ?_, h.2.1⟩
  intro ws body
  rw [Privacy.routeChain_of_walletAuth cfg backend ws req body _ hroute hr]

/-- C2 witness: `POST /v1/wallet/transfer` with the credential of another user. -/
theorem wallet_unauthorized_no_backend_call_witness :
    (Privacy.app demoConfig (okBackend .null) freshState
      { demoRequest .walletTransfer with authorization := some "Basic b3RoZXI6cGFzcw==" }).1.calls = [] ∧
    (Privacy.app demoConfig (okBackend .null) freshState
      { demoRequest .walletTransfer with authorization := some "Basic b3RoZXI6cGFzcw==" }).1.response.status = 401 :=
  have h := wallet_unauthorized_no_backend_call demoConfig (okBackend .null) freshState
    { demoRequest .walletTransfer with authorization := some "Basic b3RoZXI6cGFzcw==" }
    (by decide) (by decide) rfl (by decide)
  ⟨h.1, by rw [h.2.2 ⟨rfl, rfl⟩]⟩

/-- C3: when the user name or the password of the wallet credential is empty, `walletAuth`
calls `next()` for no request: whatever the `Authorization` header (the Basic encoding of `:`
included), on every Private-tier route it answers 500, the route's chain stops there, and the
gateway makes no backend call and answers with an error status (429 from the general limiter
or 500). -/
theorem wallet_unconfigured_fails_closed (cfg : Config) (backend : RpcCall → Reply)
    (st : AppState) (req : Request)
    (hcfg : cfg.WALLET_RPC_USER = "" ∨ cfg.WALLET_RPC_PASSWORD = "")
    (hroute : req.route.isPrivate = true) :
    Privacy.walletAuth cfg req =
      some { status := 500, body := errorBody "Wallet authentication not configured" } ∧
    (∀ ws body, (Privacy.routeChain cfg backend ws req body).1 =
      respond { status := 500, body := errorBody "Wallet authentication not configured" }) ∧
    (Privacy.app cfg backend st req).1.calls = [] ∧
    ((Privacy.app cfg backend st req).1.response.status = 429 ∨
      (Privacy.app cfg backend st req).1.response.status = 500) := by
  have hr := Privacy.walletAuth_unconfigured cfg req hcfg
  have h := Privacy.app_of_walletAuth cfg backend st req _ hroute hr
  refine ⟨hr, ?_, h.1, ?_⟩
  · intro ws body
    rw [Privacy.routeChain_of_walletAuth cfg backend ws req body _ hroute hr]
  · rcases h.2.2 with h1 | h1 | h1
    · exact Or.inl h1
    · exact Or.inr h1
    · exact Or.inr (by rw [h1])

/-- C3 witness: no credential configured and the header `Basic Og==`, the encoding of the
empty pair `:`, which equals the value `walletAuth` would compare against. -/
theorem wallet_unconfigured_fails_closed_witness :
    Privacy.expectedAuth bareConfig = "Basic Og==" ∧
    (Privacy.app bareConfig (okBackend .null) freshState
      { demoRequest .walletBalance with authorization := some "Basic Og==" }).1.calls = [] ∧
    (Privacy.app bareConfig (okBackend .null) freshState
      { demoRequest .walletBalance with authorization := some "Basic Og==" }).1.response.status = 500 :=
  have h := wallet_unconfigured_fails_closed bareConfig (okBackend .null) freshState
    { demoRequest .walletBalance with authorization := some "Basic Og==" } (Or.inl rfl) rfl
  ⟨by decide, h.2.2.1, rfl⟩

theorem Privacy.coreJsonRpc_call (cfg : Config) (backend : RpcCall → Reply) (method : String)
    (params : Json) :
    (Privacy.coreJsonRpc cfg backend method params).call = Privacy.coreCall cfg method params :=
  rfl

theorem Privacy.finish_calls (cfg : Config) (run : Privacy.RpcRun)
    (onResult : JsVal → Except JsError JsVal) (logMsg clientMsg : String) :
    (Privacy.finish cfg run onResult logMsg clientMsg).calls = [run.call] := by
  unfold Privacy.finish
  split <;> rfl

theorem Privacy.finish_of_error (cfg : Config) (run : Privacy.RpcRun)
    (onResult : JsVal → Except JsError JsVal) (logMsg clientMsg : String) (e : JsError)
    (h : run.result = .error e) :
    (Privacy.finish cfg run onResult logMsg clientMsg).response =
      { status := 500, body := errorBody clientMsg } := by
  unfold Privacy.finish
  rw [h]
  rfl

theorem Privacy.finish_of_failed_call (cfg : Config) (backend : RpcCall → Reply)
    (run : Privacy.RpcRun) (onResult : JsVal → Except JsError JsVal)
    (logMsg clientMsg : String) (call : RpcCall) (e : JsError)
    (hrun : run.result = Privacy.rpcResult (backend run.call))
    (hcall : call ∈ (Privacy.finish cfg run onResult logMsg clientMsg).calls)
    (hfail : Privacy.rpcResult (backend call) = .error e) :
    (Privacy.finish cfg run onResult logMsg clientMsg).response =
      { status := 500, body := errorBody clientMsg } := by
  rw [Privacy.finish_calls] at hcall
  have hc : call = run.call := by simpa using hcall
  subst hc
  exact Privacy.finish_of_error cfg run onResult logMsg clientMsg e (by rw [hrun, hfail])

theorem Privacy.handler_of_failed_call (cfg : Config) (backend : RpcCall → Reply)
    (req : Request) (body : Json) (call : RpcCall) (e : JsError)
    (hcall : call ∈ (Privacy.handler cfg backend req body).calls)
    (hfail : Privacy.rpcResult (backend call) = .error e) :
    (Privacy.handler cfg backend req body).response =
      { status := 500, body := errorBody (Privacy.failureMessage req.route) } := by
  unfold Privacy.handler at hcall ⊢
  cases hq : req.route with
  | health => simp [hq, Privacy.health, respond] at hcall
  | unmatched => simp [hq, respond] at hcall
  | nodeInfo =>
    simp only [hq] at hcall ⊢
    exact Privacy.finish_of_failed_call cfg backend _ _ _ _ call e rfl hcall hfail
  | nodeHeight =>
    simp only [hq] at hcall ⊢
    exact Privacy.finish_of_failed_call cfg backend _ _ _ _ call e rfl hcall hfail
  | nodeBlockcount =>
    simp only [hq] at hcall ⊢
    exact Privacy.finish_of_failed_call cfg backend _ _ _ _ call e rfl hcall hfail
  | nodeLastBlockHeader =>
    simp only [hq] at hcall ⊢
    exact Privacy.finish_of_failed_call cfg backend _ _ _ _ call e rfl hcall hfail
  | nodeBlockHeaderByHeight h =>
    simp only [hq] at hcall ⊢
    exact Privacy.finish_of_failed_call cfg backend _ _ _ _ call e rfl hcall hfail
  | walletBalance =>
    simp only [hq] at hcall ⊢
    exact Privacy.finish_of_failed_call cfg backend _ _ _ _ call e rfl hcall hfail
  | walletHeight =>
    simp only [hq] at hcall ⊢
    exact Privacy.finish_of_failed_call cfg backend _ _ _ _ call e rfl hcall hfail
  | walletTransfers =>
    simp only [hq] at hcall ⊢
    exact Privacy.finish_of_failed_call cfg backend _ _ _ _ call e rfl hcall hfail
  | walletOptimize =>
    simp only [hq] at hcall ⊢
    exact Privacy.finish_of_failed_call cfg backend _ _ _ _ call e rfl hcall hfail
  | walletTransfer =>
    simp only [hq] at hcall ⊢
    unfold Privacy.walletTransfer at hcall ⊢
    cases hv : Privacy.validateTransfer body with
    | error e' => simp [hv] at hcall
    | ok o =>
      cases o with
      | some r => simp [hv, respond] at hcall
      | none =>
        simp only [hv] at hcall ⊢
        exact Privacy.finish_of_failed_call cfg backend _ _ _ _ call e rfl hcall hfail

theorem Privacy.app_cases (cfg : Config) (backend : RpcCall → Reply) (st : AppState)
    (req : Request) :
    (∃ r, (Privacy.app cfg backend st req).1 = respond r) ∨
    (∃ e, (Privacy.app cfg backend st req).1 = Privacy.errorMiddleware cfg e) ∨
    (∃ body, req.body = .ok body ∧
      (Privacy.app cfg backend st req).1 = Privacy.handler cfg backend req body) := by
  unfold Privacy.app
  cases hrl : rateLimit Privacy.limiter st.limiter req.ip req.now with
  | mk gs o =>
    cases o with
    | some r => exact Or.inl ⟨r, rfl⟩
    | none =>
      cases hb : req.body with
      | error e => exact Or.inr (Or.inl ⟨e, rfl⟩)
      | ok body =>
        simp only [Privacy.routeChain]
        cases hm : Privacy.routeMiddleware cfg st.walletLimiter req with
        | mk g ws =>
          cases g with
          | some r => exact Or.inl ⟨r, rfl⟩
          | none => exact Or.inr (Or.inr ⟨body, rfl, rfl⟩)

theorem Plain.handler_of_error (run : RpcCall × Except JsError JsVal) (e : JsError)
    (h : run.2 = .error e) :
    (Plain.handler run).response =
      { status := 502
        body := some (jsonOfLiteral [("error", some (.str e.message)), ("code", e.code)]) } := by
  unfold Plain.handler
  rw [h]

/-- C6 (as stated, refuted): when the node refuses the connection, `GET /v1/node/info` of the
privacy-aware gateway answers 500, not 502. -/
theorem backend_failure_status_counterexample :
    (∃ e, Privacy.rpcResult (downBackend (Privacy.coreCall demoConfig "getinfo" (.obj []))) =
      .error e) ∧
    (Privacy.app demoConfig downBackend freshState (demoRequest .nodeInfo)).1.response.status =
      500 ∧
    (Privacy.app demoConfig downBackend freshState (demoRequest .nodeInfo)).1.response.status ≠
      502 := by
  refine ⟨⟨_, rfl⟩, rfl, ?_⟩
  decide

/-- C6 (amended): for every route of the privacy-aware gateway, whenever a backend call is
made and the helper (`coreJsonRpc` / `walletJsonRpc`) throws on its reply (an RPC error, a
non-2xx status, malformed JSON or a connection failure), the response has status 500 and
the body `{error: <the route's fixed message>}`, which has the shape
`{error: string, code?: any}`.  In `server.js` the same failure is answered 502 with the
body `{error: <the error's message>, code: <its code, if any>}`, of the same shape. -/
theorem backend_failure_is_500 (cfg : Config) (backend : RpcCall → Reply) (st : AppState)
    (req : Request) (call : RpcCall) (e : JsError)
    (hcall : call ∈ (Privacy.app cfg backend st req).1.calls)
    (hfail : Privacy.rpcResult (backend call) = .error e) :
    (Privacy.app cfg backend st req).1.response =
      { status := 500, body := errorBody (Privacy.failureMessage req.route) } ∧
    isErrorShape (Privacy.app cfg backend st req).1.response.body = true ∧
    (∀ (run : RpcCall × Except JsError JsVal) (e' : JsError), run.2 = .error e' →
      (Plain.handler run).response.status = 502 ∧
      (Plain.handler run).response.body =
        some (jsonOfLiteral [("error", some (.str e'.message)), ("code", e'.code)]) ∧
      isErrorShape (Plain.handler run).response.body = true) := by
  have hresp : (Privacy.app cfg backend st req).1.response =
      { status := 500, body := errorBody (Privacy.failureMessage req.route) } := by
    rcases Privacy.app_cases cfg backend st req with ⟨r, hr⟩ | ⟨e', he⟩ | ⟨body, _, hb⟩
    · rw [hr] at hcall
      simp [respond] at hcall
    · rw [he] at hcall
      simp [Privacy.errorMiddleware] at hcall
    · rw [hb] at hcall ⊢
      exact Privacy.handler_of_failed_call cfg backend req body call e hcall hfail
  refine ⟨hresp, ?_, ?_⟩
  · rw [hresp]
    simp [isErrorShape, errorBody, Json.lookup]
  · intro run e' he'
    rw [Plain.handler_of_error run e' he']
    refine ⟨rfl, rfl, ?_⟩
    cases hc : e'.code <;> simp [isErrorShape, jsonOfLiteral, Json.lookup, hc]

/-- C6 witness: the node answers `getinfo` with a JSON-RPC error object. -/
theorem backend_failure_is_500_witness :
    (Privacy.app demoConfig rpcErrorBackend freshState (demoRequest .nodeInfo)).1.response =
      { status := 500, body := errorBody "Failed to get node information" } :=
  (backend_failure_is_500 demoConfig rpcErrorBackend freshState (demoRequest .nodeInfo)
    (Privacy.coreCall demoConfig "getinfo" (.obj [])) (newError "RPC Error: Method not found")
    (by simp [Privacy.app, rateLimit, RateStore.increment, RateStore.find, Privacy.limiter,
          demoRequest, freshState, Privacy.routeChain, Privacy.routeMiddleware, Privacy.handler,
          Privacy.nodeInfo, Privacy.finish_calls, Privacy.coreJsonRpc_call])
    rfl).1

/-- C7: for every data mapping given to `logger.info`, the record printed holds no entry
named `password`, `private_key`, `seed`, `spend_key` or `view_key`; it is the mapping with
exactly those entries removed, so every other entry is printed with its value unchanged;
and the caller's mapping is the same after the call. -/
theorem logger_info_redacts (msg : String) (data : List (String × Json)) :
    (∀ k ∈ Privacy.sensitiveKeys, ∀ v, (k, v) ∉ (Privacy.logger.info msg data).1.record) ∧
    (Privacy.logger.info msg data).1.record =
      (data.filter fun p => decide (p.1 ∉ Privacy.sensitiveKeys)).map
        (fun p => (p.1, some p.2)) ∧
    (∀ k v, k ∉ Privacy.sensitiveKeys →
      ((k, some v) ∈ (Privacy.logger.info msg data).1.record ↔ (k, v) ∈ data)) ∧
    (Privacy.logger.info msg data).2 = data := by
  have hrec : (Privacy.logger.info msg data).1.record =
      (data.filter fun p => decide (p.1 ∉ Privacy.sensitiveKeys)).map
        fun p => (p.1, some p.2) := by
    simp only [Privacy.logger.info, Privacy.InfoFrame.deleteSanitized, Privacy.deleteKey,
      List.filter_filter, Privacy.sensitiveKeys]
    congr 1
    apply List.filter_congr
    intro p _
    simp only [List.mem_cons, List.mem_singleton, List.not_mem_nil, or_false, not_or,
      Bool.and_eq_true, bne_iff_ne, ne_eq, decide_eq_true_eq, Bool.decide_and, decide_not]
    by_cases h1 : p.1 = "password" <;> by_cases h2 : p.1 = "private_key" <;>
      by_cases h3 : p.1 = "seed" <;> by_cases h4 : p.1 = "spend_key" <;>
      by_cases h5 : p.1 = "view_key" <;> simp [h1, h2, h3, h4, h5]
  refine ⟨?_, hrec, ?_, rfl⟩
  · intro k hk v hmem
    rw [hrec] at hmem
    simp only [List.mem_map, List.mem_filter, decide_eq_true_eq] at hmem
    obtain ⟨p, ⟨_, hp⟩, heq⟩ := hmem
    injection heq with h1 _
    exact hp (h1 ▸ hk)
  · intro k v hk
    rw [hrec]
    simp only [List.mem_map, List.mem_filter, decide_eq_true_eq]
    constructor
    · rintro ⟨p, ⟨hp, _⟩, heq⟩
      injection heq with h1 h2
      injection h2 with h2
      have : p = (k, v) := Prod.ext h1 h2
      rw [← this]
      exact hp
    · intro hmem
      exact ⟨(k, v), ⟨hmem, hk⟩, rfl⟩

/-- C7 witness: a mapping with a password and a seed next to a method name. -/
theorem logger_info_redacts_witness :
    (Privacy.logger.info "call"
        [("method", .str "transfer"), ("password", .str "hunter2"), ("seed", .str "abc")]).1.record =
      [("method", some (.str "transfer"))] :=
  (logger_info_redacts "call"
    [("method", .str "transfer"), ("password", .str "hunter2"), ("seed", .str "abc")]).2.1

mutual
theorem Json.joinElems_error_code :
    ∀ (xs : List Json) (e : JsError), Json.joinElems xs = .error e → e.code = none
  | [], e, h => by simp [Json.joinElems] at h
  | [x], e, h => by
    rw [Json.joinElems] at h
    exact Json.elemString_error_code x e h
  | x :: y :: rest, e, h => by
    rw [Json.joinElems] at h
    split at h
    · rename_i e' he'
      injection h with h
      rw [← h]
      exact Json.elemString_error_code x e' he'
    · split at h
      · rename_i e' he'
        injection h with h
        rw [← h]
        exact Json.joinElems_error_code (y :: rest) e' he'
      · simp at h
theorem Json.elemString_error_code :
    ∀ (j : Json) (e : JsError), Json.elemString j = .error e → e.code = none
  | .null, e, h => by simp [Json.elemString] at h
  | .bool b, e, h => by simp [Json.elemString] at h
  | .num n, e, h => by simp [Json.elemString] at h
  | .str s, e, h => by simp [Json.elemString] at h
  | .arr xs, e, h => by
    rw [Json.elemString] at h
    exact Json.joinElems_error_code xs e h
  | .obj kvs, e, h => by
    rw [Json.elemString] at h
    split at h
    · injection h with h
      rw [← h]
      rfl
    · simp at h
end

theorem Privacy.app_eq (cfg : Config) (backend : RpcCall → Reply) (st : AppState)
    (req : Request) :
    (Privacy.app cfg backend st req).1 =
      match (rateLimit Privacy.limiter st.limiter req.ip req.now).2 with
      | some r => respond r
      | none =>
        match req.body with
        | .error e => Privacy.errorMiddleware cfg e
        | .ok body =>
          match (Privacy.routeMiddleware cfg st.walletLimiter req).1 with
          | some r => respond r
          | none => Privacy.handler cfg backend req body := by
  unfold Privacy.app
  cases hrl : rateLimit Privacy.limiter st.limiter req.ip req.now with
  | mk gs o =>
    cases o with
    | some r => rfl
    | none =>
      cases hb : req.body with
      | error e => rfl
      | ok body =>
        simp only [Privacy.routeChain]
        cases hm : Privacy.routeMiddleware cfg st.walletLimiter req with
        | mk g ws => cases g <;> rfl

theorem RateStore.find_increment (windowMs : Nat) (s : RateStore) (key : String) (now : Nat) :
    (s.increment windowMs key now).1.find key = some (s.increment windowMs key now).2 := by
  simp [RateStore.increment, RateStore.find]

theorem RateStore.increment_fresh (windowMs : Nat) (s : RateStore) (key : String) (now : Nat)
    (h : noLiveBucket s key now) :
    (s.increment windowMs key now).2 = { totalHits := 1, resetTime := now + windowMs } := by
  unfold RateStore.increment
  cases hf : s.find key with
  | none => rfl
  | some b =>
    have := h b hf
    simp [not_lt.mpr this]

theorem RateStore.increment_live (windowMs : Nat) (s : RateStore) (key : String) (now : Nat)
    (b : Bucket) (hf : s.find key = some b) (h : now < b.resetTime) :
    (s.increment windowMs key now).2 =
      { totalHits := b.totalHits + 1, resetTime := b.resetTime } := by
  unfold RateStore.increment
  simp [hf, h]

theorem rateLimit_fst (opts : RateLimitOptions) (s : RateStore) (key : String) (now : Nat) :
    (rateLimit opts s key now).1 = (s.increment opts.windowMs key now).1 := by
  unfold rateLimit
  cases RateStore.increment opts.windowMs s key now with
  | mk s' b => simp only []; split <;> rfl

theorem rateLimit_snd (opts : RateLimitOptions) (s : RateStore) (key : String) (now : Nat) :
    (rateLimit opts s key now).2 =
      if (s.increment opts.windowMs key now).2.totalHits > opts.max then
        some { status := 429, body := some opts.message }
      else none := by
  unfold rateLimit
  cases RateStore.increment opts.windowMs s key now with
  | mk s' b => simp only []; split <;> simp_all

theorem Privacy.app_limiter (cfg : Config) (backend : RpcCall → Reply) (st : AppState)
    (req : Request) :
    (Privacy.app cfg backend st req).2.limiter =
      (st.limiter.increment Privacy.limiter.windowMs req.ip req.now).1 := by
  rw [← rateLimit_fst]
  unfold Privacy.app
  cases hrl : rateLimit Privacy.limiter st.limiter req.ip req.now with
  | mk gs o =>
    cases o with
    | some r => rfl
    | none => cases hb : req.body <;> rfl

theorem Privacy.stateAfter_snoc (cfg : Config) (backend : RpcCall → Reply) (st : AppState)
    (pre : List Request) (q : Request) :
    Privacy.stateAfter cfg backend st (pre ++ [q]) =
      (Privacy.app cfg backend (Privacy.stateAfter cfg backend st pre) q).2 := by
  simp [Privacy.stateAfter, List.foldl_append]

theorem inOneWindow_init (windowMs : Nat) (ip : String) (t0 : Nat) (pre : List Request)
    (q : Request) (h : inOneWindow windowMs ip t0 (pre ++ [q])) :
    inOneWindow windowMs ip t0 pre ∧ q.ip = ip ∧ t0 ≤ q.now ∧ q.now < t0 + windowMs ∧
      (pre = [] → q.now = t0) := by
  obtain ⟨hall, hfirst⟩ := h
  refine ⟨⟨fun x hx => hall x (List.mem_append_left _ hx), ?_⟩, ?_⟩
  · intro x hx
    apply hfirst
    cases pre with
    | nil => simp at hx
    | cons a rest => simpa using hx
  · obtain ⟨h1, h2, h3⟩ := hall q (by simp)
    refine ⟨h1, h2, h3, ?_⟩
    intro hnil
    subst hnil
    exact hfirst q (by simp)

theorem Privacy.limiter_after (cfg : Config) (backend : RpcCall → Reply) (st : AppState)
    (ip : String) (t0 : Nat) (hlive : noLiveBucket st.limiter ip t0) :
    ∀ pre : List Request, inOneWindow Privacy.limiter.windowMs ip t0 pre → pre ≠ [] →
      (Privacy.stateAfter cfg backend st pre).limiter.find ip =
        some { totalHits := pre.length, resetTime := t0 + Privacy.limiter.windowMs } := by
  intro pre
  induction pre using List.reverseRecOn with
  | nil => intro _ h; exact absurd rfl h
  | append_singleton init q ih =>
    intro hwin _
    obtain ⟨hinit, hip, _, hlt, hfirst⟩ := inOneWindow_init _ ip t0 init q hwin
    rw [Privacy.stateAfter_snoc, Privacy.app_limiter, hip, RateStore.find_increment]
    by_cases hnil : init = []
    · subst hnil
      have ht := hfirst rfl
      rw [RateStore.increment_fresh _ _ _ _ (by rw [ht]; exact hlive), ht]
      simp [Privacy.stateAfter]
    · have hb := ih hinit hnil
      rw [RateStore.increment_live _ _ _ _ _ hb hlt]
      simp

theorem Privacy.routeMiddleware_private (cfg : Config) (ws : RateStore) (req : Request)
    (hp : req.route.isPrivate = true) :
    Privacy.routeMiddleware cfg ws req =
      match Privacy.walletAuth cfg req with
      | some r => (some r, ws)
      | none => ((rateLimit Privacy.walletLimiter ws req.ip req.now).2,
                 (rateLimit Privacy.walletLimiter ws req.ip req.now).1) := by
  unfold Privacy.routeMiddleware
  cases hq : req.route <;> simp [hq, Route.isPrivate] at hp <;> rfl

theorem Privacy.routeMiddleware_store (cfg : Config) (ws : RateStore) (req : Request)
    (hp : req.route.isPrivate = false) :
    (Privacy.routeMiddleware cfg ws req).2 = ws := by
  unfold Privacy.routeMiddleware
  cases hq : req.route <;> simp [hq, Route.isPrivate] at hp <;> rfl

theorem Privacy.app_walletLimiter (cfg : Config) (backend : RpcCall → Reply) (st : AppState)
    (req : Request) :
    (Privacy.app cfg backend st req).2.walletLimiter =
      if ((rateLimit Privacy.limiter st.limiter req.ip req.now).2.isNone &&
          req.body.toBool) = true then
        (Privacy.routeMiddleware cfg st.walletLimiter req).2
      else st.walletLimiter := by
  unfold Privacy.app
  cases hrl : rateLimit Privacy.limiter st.limiter req.ip req.now with
  | mk gs o =>
    cases o with
    | some r => simp
    | none =>
      cases hb : req.body with
      | error e => simp [Except.toBool]
      | ok body =>
        simp only [Privacy.routeChain, Except.toBool, Option.isNone_none, Bool.and_self,
          if_true]
        cases hm : Privacy.routeMiddleware cfg st.walletLimiter req with
        | mk g ws => cases g <;> rfl

theorem Privacy.wallet_step (cfg : Config) (backend : RpcCall → Reply) (st : AppState)
    (req : Request) :
    ((Privacy.app cfg backend st req).2.walletLimiter = st.walletLimiter ∧
      (req.route.isPrivate && Privacy.handlerRuns cfg st req) = false) ∨
    ((Privacy.app cfg backend st req).2.walletLimiter =
        (st.walletLimiter.increment Privacy.walletLimiter.windowMs req.ip req.now).1 ∧
      ((req.route.isPrivate && Privacy.handlerRuns cfg st req) = true →
        (st.walletLimiter.increment Privacy.walletLimiter.windowMs req.ip req.now).2.totalHits
          ≤ 10)) := by
  rw [Privacy.app_walletLimiter]
  unfold Privacy.handlerRuns
  by_cases hp : req.route.isPrivate = true
  · rw [Privacy.routeMiddleware_private cfg _ req hp]
    by_cases hg : ((rateLimit Privacy.limiter st.limiter req.ip req.now).2.isNone &&
        req.body.toBool) = true
    · rw [if_pos hg]
      cases ha : Privacy.walletAuth cfg req with
      | some r => left; simp [hp]
      | none =>
        right
        simp only [rateLimit_fst, rateLimit_snd, true_and]
        intro h
        by_contra hgt
        have hgt' : (RateStore.increment Privacy.walletLimiter.windowMs st.walletLimiter
            req.ip req.now).2.totalHits > Privacy.walletLimiter.max := by
          have hmax : Privacy.walletLimiter.max = 10 := rfl
          rw [hmax]
          omega
        simp [hgt', hp] at h
    · rw [if_neg hg]
      left
      refine ⟨rfl, ?_⟩
      have hg' : ((rateLimit Privacy.limiter st.limiter req.ip req.now).2.isNone &&
        req.body.toBool) = false := by simpa using hg
      simp [hg']
  · have hp' : req.route.isPrivate = false := by simpa using hp
    left
    rw [Privacy.routeMiddleware_store cfg _ req hp']
    simp [hp']

theorem countingBucket_increment (windowMs : Nat) (s : RateStore) (key : String)
    (T k now : Nat) (h : countingBucket s key T k) (hnow : now < T) :
    countingBucket (s.increment windowMs key now).1 key T (k + 1) ∧
      (s.increment windowMs key now).2.totalHits = k + 1 := by
  obtain ⟨b, hf, hk, hT⟩ := h
  have hlive := RateStore.increment_live windowMs s key now b hf (by omega)
  refine ⟨⟨_, RateStore.find_increment windowMs s key now, ?_, ?_⟩, ?_⟩ <;> rw [hlive] <;>
    simp [hk, hT]

theorem countingBucket_fresh (windowMs : Nat) (s : RateStore) (key : String)
    (t0 now : Nat) (h : noLiveBucket s key t0) (hnow : t0 ≤ now) :
    countingBucket (s.increment windowMs key now).1 key (t0 + windowMs) 1 ∧
      (s.increment windowMs key now).2.totalHits = 1 := by
  have hfresh := RateStore.increment_fresh windowMs s key now
    (fun b hb => le_trans (h b hb) hnow)
  refine ⟨⟨_, RateStore.find_increment windowMs s key now, ?_, ?_⟩, ?_⟩
  · rw [hfresh]
  · rw [hfresh]
    simp [hnow]
  · rw [hfresh]

theorem Privacy.handlerRuns_general (cfg : Config) (st : AppState) (req : Request)
    (h : Privacy.handlerRuns cfg st req = true) :
    (st.limiter.increment Privacy.limiter.windowMs req.ip req.now).2.totalHits ≤ 100 := by
  unfold Privacy.handlerRuns at h
  simp only [Bool.and_eq_true, rateLimit_snd] at h
  by_contra hgt
  have hgt' : (RateStore.increment Privacy.limiter.windowMs st.limiter req.ip req.now).2.totalHits
      > Privacy.limiter.max := by
    have hmax : Privacy.limiter.max = 100 := rfl
    rw [hmax]
    omega
  simp [hgt'] at h

theorem Privacy.countHandled_counting (cfg : Config) (backend : RpcCall → Reply)
    (p : Request → Bool) (ip : String) (T : Nat) :
    ∀ (reqs : List Request) (st : AppState) (k : Nat),
      (∀ q ∈ reqs, q.ip = ip ∧ q.now < T) → countingBucket st.limiter ip T k →
      Privacy.countHandled cfg backend p st reqs ≤ 100 - k := by
  intro reqs
  induction reqs with
  | nil => intro st k _ _; simp [Privacy.countHandled]
  | cons q rest ih =>
    intro st k hwin hcount
    obtain ⟨hip, hnow⟩ := hwin q (List.mem_cons_self _ _)
    obtain ⟨hnext, hhits⟩ :=
      countingBucket_increment Privacy.limiter.windowMs st.limiter ip T k q.now hcount hnow
    have hrest := ih (Privacy.app cfg backend st q).2 (k + 1)
      (fun x hx => hwin x (List.mem_cons_of_mem _ hx))
      (by rw [Privacy.app_limiter, hip]; exact hnext)
    simp only [Privacy.countHandled]
    by_cases hrun : (p q && Privacy.handlerRuns cfg st q) = true
    · have hle := Privacy.handlerRuns_general cfg st q (by
        simp only [Bool.and_eq_true] at hrun
        exact hrun.2)
      rw [hip, hhits] at hle
      rw [if_pos hrun]
      omega
    · rw [if_neg hrun]
      omega

theorem Privacy.countHandled_general (cfg : Config) (backend : RpcCall → Reply)
    (p : Request → Bool) (ip : String) (t0 : Nat) (reqs : List Request) (st : AppState)
    (hwin : ∀ q ∈ reqs, q.ip = ip ∧ t0 ≤ q.now ∧ q.now < t0 + Privacy.limiter.windowMs)
    (hlive : noLiveBucket st.limiter ip t0) :
    Privacy.countHandled cfg backend p st reqs ≤ 100 := by
  cases reqs with
  | nil => simp [Privacy.countHandled]
  | cons q rest =>
    obtain ⟨hip, hge, _⟩ := hwin q (List.mem_cons_self _ _)
    obtain ⟨hnext, _⟩ :=
      countingBucket_fresh Privacy.limiter.windowMs st.limiter ip t0 q.now hlive hge
    have hrest := Privacy.countHandled_counting cfg backend p ip
      (t0 + Privacy.limiter.windowMs) rest (Privacy.app cfg backend st q).2 1
      (fun x hx => ⟨(hwin x (List.mem_cons_of_mem _ hx)).1,
        (hwin x (List.mem_cons_of_mem _ hx)).2.2⟩)
      (by rw [Privacy.app_limiter, hip]; exact hnext)
    simp only [Privacy.countHandled]
    split <;> omega

theorem Privacy.countHandled_wallet (cfg : Config) (backend : RpcCall → Reply)
    (ip : String) (t0 : Nat) :
    ∀ (reqs : List Request) (st : AppState),
      (∀ q ∈ reqs, q.ip = ip ∧ t0 ≤ q.now ∧ q.now < t0 + Privacy.walletLimiter.windowMs) →
      (∀ k, countingBucket st.walletLimiter ip (t0 + Privacy.walletLimiter.windowMs) k →
        Privacy.countHandled cfg backend (fun q => q.route.isPrivate) st reqs ≤ 10 - k) ∧
      (noLiveBucket st.walletLimiter ip t0 →
        Privacy.countHandled cfg backend (fun q => q.route.isPrivate) st reqs ≤ 10) := by
  intro reqs
  induction reqs with
  | nil => intro st _; simp [Privacy.countHandled]
  | cons q rest ih =>
    intro st hwin
    obtain ⟨hip, hge, hlt⟩ := hwin q (List.mem_cons_self _ _)
    have ih' := ih (Privacy.app cfg backend st q).2
      (fun x hx => hwin x (List.mem_cons_of_mem _ hx))
    simp only [Privacy.countHandled]
    rcases Privacy.wallet_step cfg backend st q with ⟨hsame, hno⟩ | ⟨hinc, hhit⟩
    · rw [hsame] at ih'
      rw [hno]
      simpa using ih'
    · rw [hinc, hip] at ih'
      rw [hip] at hhit
      constructor
      · intro k hcount
        obtain ⟨hnext, hhits⟩ := countingBucket_increment Privacy.walletLimiter.windowMs
          st.walletLimiter ip _ k q.now hcount hlt
        have hrest := ih'.1 (k + 1) hnext
        by_cases hrun : (q.route.isPrivate && Privacy.handlerRuns cfg st q) = true
        · have := hhit hrun
          rw [hhits] at this
          rw [if_pos hrun]
          omega
        · rw [if_neg hrun]
          omega
      · intro hlive
        obtain ⟨hnext, _⟩ := countingBucket_fresh Privacy.walletLimiter.windowMs
          st.walletLimiter ip t0 q.now hlive hge
        have hrest := ih'.1 1 hnext
        split <;> omega

theorem Privacy.limiter_hits (cfg : Config) (backend : RpcCall → Reply) (st : AppState)
    (ip : String) (t0 : Nat) (hlive : noLiveBucket st.limiter ip t0)
    (pre : List Request) (r : Request)
    (hwin : inOneWindow Privacy.limiter.windowMs ip t0 (pre ++ [r])) :
    ((Privacy.stateAfter cfg backend st pre).limiter.increment Privacy.limiter.windowMs
      r.ip r.now).2.totalHits = pre.length + 1 := by
  obtain ⟨hinit, hip, _, hlt, hfirst⟩ := inOneWindow_init _ ip t0 pre r hwin
  rw [hip]
  by_cases hnil : pre = []
  · subst hnil
    have ht := hfirst rfl
    rw [RateStore.increment_fresh _ _ _ _ (by rw [ht]; exact hlive)]
    rfl
  · have hb := Privacy.limiter_after cfg backend st ip t0 hlive pre hinit hnil
    rw [RateStore.increment_live _ _ _ _ _ hb hlt]

theorem Privacy.limiter_decision (cfg : Config) (backend : RpcCall → Reply) (st : AppState)
    (ip : String) (t0 : Nat) (hlive : noLiveBucket st.limiter ip t0)
    (pre : List Request) (r : Request)
    (hwin : inOneWindow Privacy.limiter.windowMs ip t0 (pre ++ [r])) :
    (rateLimit Privacy.limiter (Privacy.stateAfter cfg backend st pre).limiter r.ip r.now).2 =
      if pre.length < 100 then none
      else some { status := 429, body := some Privacy.limiter.message } := by
  rw [rateLimit_snd, Privacy.limiter_hits cfg backend st ip t0 hlive pre r hwin]
  have hmax : Privacy.limiter.max = 100 := rfl
  rw [hmax]
  by_cases h : pre.length < 100
  · rw [if_pos h, if_neg (by omega)]
  · rw [if_neg h, if_pos (by omega)]

theorem Privacy.walletLimiter_after (cfg : Config) (backend : RpcCall → Reply) (st : AppState)
    (ip : String) (t0 : Nat) (hg : noLiveBucket st.limiter ip t0)
    (hw : noLiveBucket st.walletLimiter ip t0) :
    ∀ pre : List Request, inOneWindow Privacy.limiter.windowMs ip t0 pre →
      (∀ q ∈ pre, Privacy.authenticatedWallet cfg q) → pre.length ≤ 100 → pre ≠ [] →
      (Privacy.stateAfter cfg backend st pre).walletLimiter.find ip =
        some { totalHits := pre.length, resetTime := t0 + Privacy.walletLimiter.windowMs } := by
  intro pre
  induction pre using List.reverseRecOn with
  | nil => intro _ _ _ h; exact absurd rfl h
  | append_singleton init q ih =>
    intro hwin hauth hlen _
    obtain ⟨hinit, hip, _, hlt, hfirst⟩ := inOneWindow_init _ ip t0 init q hwin
    obtain ⟨hpriv, hwa, hbody⟩ := hauth q (by simp)
    have hlen' : init.length < 100 := by
      simp only [List.length_append, List.length_singleton] at hlen
      omega
    have hpass := Privacy.limiter_decision cfg backend st ip t0 hg init q hwin
    rw [if_pos hlen'] at hpass
    rw [Privacy.stateAfter_snoc, Privacy.app_walletLimiter, hpass, hbody,
      Privacy.routeMiddleware_private cfg _ q hpriv, hwa]
    simp only [Option.isNone_none, Bool.and_self, if_true, rateLimit_fst]
    rw [hip, RateStore.find_increment]
    by_cases hnil : init = []
    · subst hnil
      have ht := hfirst rfl
      rw [RateStore.increment_fresh _ _ _ _ (by rw [ht]; exact hw), ht]
      simp [Privacy.stateAfter]
    · have hb := ih hinit (fun x hx => hauth x (List.mem_append_left _ hx)) (by omega) hnil
      rw [RateStore.increment_live _ _ _ _ _ hb hlt]
      simp

theorem Privacy.walletLimiter_decision (cfg : Config) (backend : RpcCall → Reply)
    (st : AppState) (ip : String) (t0 : Nat) (hg : noLiveBucket st.limiter ip t0)
    (hw : noLiveBucket st.walletLimiter ip t0) (pre : List Request) (r : Request)
    (hwin : inOneWindow Privacy.limiter.windowMs ip t0 (pre ++ [r]))
    (hauth : ∀ q ∈ pre ++ [r], Privacy.authenticatedWallet cfg q)
    (hlen : pre.length < 100) :
    (Privacy.routeMiddleware cfg (Privacy.stateAfter cfg backend st pre).walletLimiter r).1 =
      if pre.length < 10 then none
      else some { status := 429, body := some Privacy.walletLimiter.message } := by
  obtain ⟨hinit, hip, _, hlt, hfirst⟩ := inOneWindow_init _ ip t0 pre r hwin
  obtain ⟨hpriv, hwa, _⟩ := hauth r (by simp)
  rw [Privacy.routeMiddleware_private cfg _ r hpriv, hwa]
  simp only [rateLimit_snd]
  have hhits : ((Privacy.stateAfter cfg backend st pre).walletLimiter.increment
      Privacy.walletLimiter.windowMs r.ip r.now).2.totalHits = pre.length + 1 := by
    rw [hip]
    by_cases hnil : pre = []
    · subst hnil
      have ht := hfirst rfl
      rw [RateStore.increment_fresh _ _ _ _ (by rw [ht]; exact hw)]
      rfl
    · have hb := Privacy.walletLimiter_after cfg backend st ip t0 hg hw pre hinit
        (fun x hx => hauth x (List.mem_append_left _ hx)) (by omega) hnil
      rw [RateStore.increment_live _ _ _ _ _ hb hlt]
  rw [hhits]
  have hmax : Privacy.walletLimiter.max = 10 := rfl
  rw [hmax]
  by_cases h : pre.length < 10
  · rw [if_pos h, if_neg (by omega)]
  · rw [if_neg h, if_pos (by omega)]

theorem Privacy.app_of_handlerRuns (cfg : Config) (backend : RpcCall → Reply) (st : AppState)
    (req : Request) (h : Privacy.handlerRuns cfg st req = true) :
    ∃ body, req.body = .ok body ∧
      (Privacy.app cfg backend st req).1 = Privacy.handler cfg backend req body := by
  unfold Privacy.handlerRuns at h
  simp only [Bool.and_eq_true, Option.isNone_iff_eq_none] at h
  obtain ⟨⟨hgen, hbody⟩, hmid⟩ := h
  cases hb : req.body with
  | error e => simp [hb, Except.toBool] at hbody
  | ok body =>
    refine ⟨body, rfl, ?_⟩
    rw [Privacy.app_eq, hgen, hb, hmid]

/-- C9 (as stated, refuted): of eleven requests of one address within one window to
`GET /v1/wallet/balance` that carry no credential, the eleventh is answered 401 by
`walletAuth`, not 429: the wallet limiter sits behind the credential check and never sees
them. -/
theorem wallet_quota_unauthenticated_counterexample :
    ((Privacy.serve demoConfig downBackend freshState
        (List.replicate 11 (demoRequest .walletBalance))).getLast?.map
          fun o => o.response.status) = some 401 := by
  decide

/-- C9 (amended): for requests of one source address inside one 15-minute window (opened by
the first of them, the address having no counting bucket before): of any such sequence at
most 100 are handed to a handler, and at most 10 to the handler of a wallet route; the
general limiter calls `next()` for a request preceded by fewer than 100 others and answers
every later one 429 with the hint `retryAfter`; when the requests are wallet requests that
carry the configured credential, the handler runs for one preceded by fewer than 10 others,
and the 11th to the 100th are answered 429 with the hint `retryAfter` by the wallet limiter;
a request of that address in the next window passes the general limiter again, and such a
wallet request reaches its handler again. -/
theorem rate_limit_quota (cfg : Config) (backend : RpcCall → Reply) (st : AppState)
    (ip : String) (t0 : Nat) (pre : List Request) (r : Request)
    (hg : noLiveBucket st.limiter ip t0) (hw : noLiveBucket st.walletLimiter ip t0)
    (hwin : inOneWindow Privacy.limiter.windowMs ip t0 (pre ++ [r])) :
    Privacy.countHandled cfg backend (fun _ => true) st (pre ++ [r]) ≤ 100 ∧
    Privacy.countHandled cfg backend (fun q => q.route.isPrivate) st (pre ++ [r]) ≤ 10 ∧
    (pre.length < 100 →
      (rateLimit Privacy.limiter (Privacy.stateAfter cfg backend st pre).limiter
        r.ip r.now).2 = none) ∧
    (100 ≤ pre.length →
      (Privacy.app cfg backend (Privacy.stateAfter cfg backend st pre) r).1 =
        respond { status := 429, body := some Privacy.limiter.message }) ∧
    ((∀ q ∈ pre ++ [r], Privacy.authenticatedWallet cfg q) →
      (pre.length < 10 → ∃ body, r.body = .ok body ∧
        (Privacy.app cfg backend (Privacy.stateAfter cfg backend st pre) r).1 =
          Privacy.handler cfg backend r body) ∧
      (10 ≤ pre.length → pre.length < 100 →
        (Privacy.app cfg backend (Privacy.stateAfter cfg backend st pre) r).1 =
          respond { status := 429, body := some Privacy.walletLimiter.message })) ∧
    (∀ next : Request, next.ip = ip → t0 + Privacy.limiter.windowMs ≤ next.now →
      (rateLimit Privacy.limiter (Privacy.stateAfter cfg backend st (pre ++ [r])).limiter
        next.ip next.now).2 = none ∧
      ((∀ q ∈ pre ++ [r], Privacy.authenticatedWallet cfg q) → pre.length < 100 →
        Privacy.authenticatedWallet cfg next →
        ∃ body, next.body = .ok body ∧
          (Privacy.app cfg backend (Privacy.stateAfter cfg backend st (pre ++ [r])) next).1 =
            Privacy.handler cfg backend next body)) ∧
    Privacy.limiter.message.field "retryAfter" = some (.str "15 minutes") ∧
    Privacy.walletLimiter.message.field "retryAfter" = some (.str "15 minutes") := by
  have hdec := Privacy.limiter_decision cfg backend st ip t0 hg pre r hwin
  have hne : pre ++ [r] ≠ [] := by simp
  refine ⟨?_, ?_, ?_, ?_, ?_, ?_, rfl, rfl⟩
  · exact Privacy.countHandled_general cfg backend _ ip t0 _ st hwin.1 hg
  · exact (Privacy.countHandled_wallet cfg backend ip t0 _ st hwin.1).2 hw
  · intro hlt
    rw [hdec, if_pos hlt]
  · intro hge
    rw [Privacy.app_eq, hdec, if_neg (by omega)]
  · intro hauth
    constructor
    · intro hlt
      apply Privacy.app_of_handlerRuns
      unfold Privacy.handlerRuns
      rw [hdec, if_pos (by omega), (hauth r (by simp)).2.2,
        Privacy.walletLimiter_decision cfg backend st ip t0 hg hw pre r hwin hauth (by omega),
        if_pos hlt]
      rfl
    · intro hge hlt
      obtain ⟨_, _, hbody⟩ := hauth r (by simp)
      cases hb : r.body with
      | error e => simp [hb, Except.toBool] at hbody
      | ok body =>
        rw [Privacy.app_eq, hdec, if_pos hlt, hb]
        simp only
        rw [Privacy.walletLimiter_decision cfg backend st ip t0 hg hw pre r hwin hauth hlt,
          if_neg (by omega)]
  · intro next hip hnext
    have hb := Privacy.limiter_after cfg backend st ip t0 hg (pre ++ [r]) hwin hne
    have hfreshG : (RateStore.increment Privacy.limiter.windowMs
        (Privacy.stateAfter cfg backend st (pre ++ [r])).limiter next.ip next.now).2 =
        { totalHits := 1, resetTime := next.now + Privacy.limiter.windowMs } := by
      apply RateStore.increment_fresh
      intro b hbk
      rw [hip, hb] at hbk
      injection hbk with hbk
      rw [← hbk]
      exact hnext
    have hpass : (rateLimit Privacy.limiter
        (Privacy.stateAfter cfg backend st (pre ++ [r])).limiter next.ip next.now).2 = none := by
      rw [rateLimit_snd, hfreshG]
      rfl
    refine ⟨hpass, ?_⟩
    intro hauth hlt hnextAuth
    obtain ⟨hpriv, hwa, hbody⟩ := hnextAuth
    have hwb := Privacy.walletLimiter_after cfg backend st ip t0 hg hw (pre ++ [r]) hwin hauth
      (by simp only [List.length_append, List.length_singleton]; omega) hne
    have hfreshW : (RateStore.increment Privacy.walletLimiter.windowMs
        (Privacy.stateAfter cfg backend st (pre ++ [r])).walletLimiter next.ip next.now).2 =
        { totalHits := 1, resetTime := next.now + Privacy.walletLimiter.windowMs } := by
      apply RateStore.increment_fresh
      intro b hbk
      rw [hip, hwb] at hbk
      injection hbk with hbk
      rw [← hbk]
      exact hnext
    apply Privacy.app_of_handlerRuns
    unfold Privacy.handlerRuns
    rw [hpass, hbody, Privacy.routeMiddleware_private cfg _ next hpriv, hwa]
    simp only [rateLimit_snd, hfreshW]
    rfl

/-- C9 witness: on a fresh gateway the 101st request of an address to `GET /v1/node/info` is
answered 429 by the general limiter, and the 11th credentialed request to
`GET /v1/wallet/balance` is answered 429 by the wallet limiter. -/
theorem rate_limit_quota_witness :
    (Privacy.app demoConfig (okBackend scenarioInfo)
        (Privacy.stateAfter demoConfig (okBackend scenarioInfo) freshState
          (List.replicate 100 (demoRequest .nodeInfo))) (demoRequest .nodeInfo)).1 =
      respond { status := 429, body := some Privacy.limiter.message } ∧
    (Privacy.app demoConfig (okBackend scenarioInfo)
        (Privacy.stateAfter demoConfig (okBackend scenarioInfo) freshState
          (List.replicate 10 demoWalletRequest)) demoWalletRequest).1 =
      respond { status := 429, body := some Privacy.walletLimiter.message } :=
  ⟨(rate_limit_quota demoConfig (okBackend scenarioInfo) freshState "10.0.0.1" 0
      (List.replicate 100 (demoRequest .nodeInfo)) (demoRequest .nodeInfo)
      (fun b h => by simp [freshState, RateStore.find] at h)
      (fun b h => by simp [freshState, RateStore.find] at h)
      ⟨fun q hq => by
          have hq' : q = demoRequest .nodeInfo := by
            rcases List.mem_append.mp hq with h | h
            · exact List.eq_of_mem_replicate h
            · simpa using h
          subst hq'
          decide,
        fun q hq => by
          have hq' : q = demoRequest .nodeInfo := by simpa [List.replicate] using hq.symm
          subst hq'
          rfl⟩).2.2.2.1 (by simp),
   ((rate_limit_quota demoConfig (okBackend scenarioInfo) freshState "10.0.0.1" 0
      (List.replicate 10 demoWalletRequest) demoWalletRequest
      (fun b h => by simp [freshState, RateStore.find] at h)
      (fun b h => by simp [freshState, RateStore.find] at h)
      ⟨fun q hq => by
          have hq' : q = demoWalletRequest := by
            rcases List.mem_append.mp hq with h | h
            · exact List.eq_of_mem_replicate h
            · simpa using h
          subst hq'
          decide,
        fun q hq => by
          have hq' : q = demoWalletRequest := by simpa [List.replicate] using hq.symm
          subst hq'
          rfl⟩).2.2.2.2.1
      (fun q hq => by
          have hq' : q = demoWalletRequest := by
            rcases List.mem_append.mp hq with h | h
            · exact List.eq_of_mem_replicate h
            · simpa using h
          subst hq'
          exact ⟨rfl, rfl, rfl⟩)).2 (by simp) (by simp)⟩

